import Mathlib

/-!
Verification of the listening-history-quiz engine.

This file shallowly embeds the Python source of the repository
(`src/app.py`, `src/template_question_generator.py`,
`src/multiplayer_question_generator.py`, `src/models.py`) into Lean 4 and
proves or refutes the frozen specification claims about it.

Conventions of the embedding:
* Python values that may be a string, a list of indices, or `None` are the
  inductive type `Val`.
* Database rows (the dictionaries produced by the models' `to_dict`) are
  `Rec`: a field-lookup function `String → Option String` plus the numeric
  `rank` column.  Reading an absent key with `.get` yields `none`.
* The `random` module is modelled by an explicit stream `s : Nat → Nat` of
  draws together with a cursor: each primitive (`choice`, `randint`,
  `sample`, `shuffle`) consumes a fixed number of stream values and reduces
  them modulo the size of its range.  Every outcome the Python primitive can
  produce is produced by some stream, and conversely.
* Fallible handlers return `Except PyErr _`; an uncaught Python exception is
  an `Except.error`.
* `float` percentages are modelled by exact rationals; Python's `round(x, 1)`
  (round-half-to-even at one decimal) is `pyRound1`.
-/

/-- A raw client/JSON value: a string, an ordered list of indices, or None. -/
inductive Val where
  | vstr (s : String)
  | vlist (l : List Nat)
  | vnone
deriving DecidableEq

/-- Decimal digit character, `'0'`–`'9'` for `d ≤ 9` (how Python prints one digit). -/
def digitCh (d : Nat) : Char := Char.ofNat (48 + d)

/-- Bounded decimal rendering; the fuel only needs to cover the digit count,
so `natToDecimal` passes `n` itself. -/
def natToDecimalAux : Nat → Nat → List Char
  | 0, n => [digitCh n]
  | fuel + 1, n =>
    if n < 10 then [digitCh n]
    else natToDecimalAux fuel (n / 10) ++ [digitCh (n % 10)]

/-- Decimal rendering of a natural number, as Python's `str(int)` prints it. -/
def natToDecimal (n : Nat) : List Char := natToDecimalAux n n

/-- `str(n)` for a natural number `n`. -/
def pyStrNat (n : Nat) : String := String.mk (natToDecimal n)

/-- Value of a list of decimal digit characters, most significant first. -/
def digitsVal (cs : List Char) : Nat :=
  cs.foldl (fun a c => a * 10 + (c.toNat - 48)) 0

/-- Python's `str(list_of_ints)`: comma-and-space separated, in brackets. -/
def pyJoinComma : List String → String
  | [] => ""
  | [x] => x
  | x :: y :: xs => x ++ ", " ++ pyJoinComma (y :: xs)

/-- Python's `str([n0, n1, ...])`, e.g. `str([0, 1, 2]) = "[0, 1, 2]"`. -/
def pyStrList (l : List Nat) : String :=
  "[" ++ pyJoinComma (l.map pyStrNat) ++ "]"

/-- Split a character list on a separator character (like `str.split(',')`). -/
def splitCharOn (sep : Char) : List Char → List (List Char)
  | [] => [[]]
  | c :: cs =>
    if c = sep then [] :: splitCharOn sep cs
    else
      match splitCharOn sep cs with
      | [] => [[c]]
      | g :: gs => (c :: g) :: gs

/-- Trim leading and trailing spaces from a character list. -/
def trimSpaces (cs : List Char) : List Char :=
  ((cs.dropWhile (· = ' ')).reverse.dropWhile (· = ' ')).reverse

/-- Parse one comma-separated chunk of a JSON integer array: optional spaces
around a nonempty run of decimal digits. -/
def chunkToNat (cs : List Char) : Option Nat :=
  let t := trimSpaces cs
  if t ≠ [] ∧ t.all Char.isDigit then some (digitsVal t) else none

/-- Helper to `jsonParseNatList`: checks the closing bracket (given the
reversed remainder) and parses the comma-separated body. -/
def parseBracketInner : List Char → Option (List Nat)
  | [] => none
  | d :: mid =>
    if d = ']' then
      let body := mid.reverse
      if body = [] then some []
      else (splitCharOn ',' body).mapM chunkToNat
    else none

/-- Helper to `jsonParseNatList`: checks the opening bracket. -/
def parseBracketList : List Char → Option (List Nat)
  | [] => none
  | c :: rest => if c = '[' then parseBracketInner rest.reverse else none

/-- `json.loads` restricted to arrays of nonnegative integers, the only shape
the grader ever feeds it (serialized `correct_order` lists).  Any other
document makes `json.loads` raise, which callers catch; that is `none` here. -/
def jsonParseNatList (s : String) : Option (List Nat) :=
  parseBracketList s.data

/-- Python `str()` applied to a `Val` (`str('x') = 'x'`, `str(None) = 'None'`). -/
def pyStr : Val → String
  | .vstr s => s
  | .vlist l => pyStrList l
  | .vnone => "None"

/-- Python `str.lower()` (ASCII case folding, the range the data exercises). -/
def pyLower (s : String) : String := String.mk (s.data.map Char.toLower)

/-- Python `str.strip()`: remove leading and trailing whitespace. -/
def pyStrip (s : String) : String :=
  String.mk (((s.data.dropWhile Char.isWhitespace).reverse.dropWhile Char.isWhitespace).reverse)

/-- Python `str.startswith(pre)`. -/
def pyStartsWith (s pre : String) : Bool := pre.data.isPrefixOf s.data

/-- Executable substring-occurrence test on character lists. -/
def listContainsSub [DecidableEq α] (sub : List α) : List α → Bool
  | [] => sub = []
  | c :: cs => sub.isPrefixOf (c :: cs) || listContainsSub sub cs

/-- Python `sub in s` substring membership. -/
def pyContains (s sub : String) : Bool := listContainsSub sub.data s.data

/-! ### The `random` module, as an explicit stream of draws

`s : Nat → Nat` is the stream of raw draws and a cursor indexes into it.
Each primitive reduces the raw draw modulo the size of its range, so every
outcome Python's uniform primitive can produce is the image of some stream.
Primitives return their result together with the advanced cursor. -/

/-- `random.choice(xs)` — `none` models the `IndexError` on an empty sequence. -/
def pyChoice (xs : List α) (r : Nat) : Option α := xs[r % xs.length]?

/-- `random.randint(lo, hi)` (both ends inclusive) — `none` models the
`ValueError` raised when `lo > hi`. -/
def pyRandint (lo hi : Nat) (r : Nat) : Option Nat :=
  if lo ≤ hi then some (lo + r % (hi + 1 - lo)) else none

/-- `random.sample(pool, k)`: `k` successive uniform picks without
replacement.  Callers always pass `k ≤ len(pool)` (they clamp with `min`), so
the early-exhaustion case is unreachable for them. -/
def pySample (s : Nat → Nat) : Nat → Nat → List α → List α × Nat
  | 0, c, _ => ([], c)
  | k + 1, c, pool =>
    match pool[s c % pool.length]? with
    | none => ([], c)
    | some x =>
      let rest := pySample s k (c + 1) (pool.eraseIdx (s c % pool.length))
      (x :: rest.1, rest.2)

/-- One Fisher–Yates swap: exchange positions `i` and `j`. -/
def listSwap (xs : List α) (i j : Nat) : List α :=
  match xs[i]?, xs[j]? with
  | some a, some b => (xs.set i b).set j a
  | _, _ => xs

/-- `random.shuffle(xs)` (Fisher–Yates: for `i` from `len-1` down to `1`,
swap `i` with a draw from `[0, i]`), consuming `len - 1` stream values. -/
def pyShuffle (s : Nat → Nat) (c : Nat) (xs : List α) : List α × Nat :=
  ((List.range (xs.length - 1)).foldl
    (fun acc k =>
      let i := xs.length - 1 - k
      listSwap acc i (s (c + k) % (i + 1)))
    xs,
   c + (xs.length - 1))

/-! ### Python dictionaries as association lists (first key occurrence wins) -/

/-- `d.get(k)` / `d[k]` lookup on a dict modelled as an association list. -/
def dictGet (m : List (String × α)) (k : String) : Option α :=
  (m.find? (fun p => p.1 = k)).map (·.2)

/-- `d[k] = v` on a dict: overwrite the existing binding, else append. -/
def dictSet (m : List (String × α)) (k : String) (v : α) : List (String × α) :=
  if (m.find? (fun p => p.1 = k)).isSome
  then m.map (fun p => if p.1 = k then (k, v) else p)
  else m ++ [(k, v)]

/-! ### Python `round(x, 1)` on exact rationals -/

/-- Round-half-to-even to an integer, Python's `round` on an exact value. -/
def pyRoundEven (x : ℚ) : ℤ :=
  let f := ⌊x⌋
  let r := x - f
  if r < 1/2 then f else if 1/2 < r then f + 1 else if Even f then f else f + 1

/-- Python's `round(x, 1)`. -/
def pyRound1 (x : ℚ) : ℚ := (pyRoundEven (10 * x) : ℚ) / 10


/-! ### Data model

`Rec` is one row-dictionary as produced by the models' `to_dict` methods in
`src/models.py` (`Album`, `SavedTrack`, `Playlist`, `TopTrack`, `TopArtist`):
string-valued columns are reached through `.get(key)` (`attrs`), and the
integer `rank` column, which `generate_multiple_choice_question` reads with
`.get('rank', 999)`, is kept separately. -/

structure Rec where
  attrs : String → Option String
  rank : Option Int

/-- The dictionary `get_user_data` (template_question_generator.py) builds
from the database: one list of rows per data source.  `get` is the
`user_data.get(data_source, [])` lookup on that dictionary's keys. -/
structure UserData where
  albums : List Rec
  saved_tracks : List Rec
  playlists : List Rec
  top_tracks : List Rec
  top_artists : List Rec

def UserData.get (ud : UserData) (k : String) : List Rec :=
  if k = "albums" then ud.albums
  else if k = "saved_tracks" then ud.saved_tracks
  else if k = "playlists" then ud.playlists
  else if k = "top_tracks" then ud.top_tracks
  else if k = "top_artists" then ud.top_artists
  else []

/-- One entry of a drag-drop question's `data['items']` list. -/
structure QItem where
  name : Option String
  image_url : Option String
  artist : Option String
  track_id : Option String
deriving DecidableEq

/-- The `data` dictionary attached to a generated question, with one optional
slot per key any generator ever writes. Keys a generator does not write are
`none` / `[]`. -/
structure QData where
  image_urls : List (Option String × String)
  items : List QItem
  correct_order : List Nat
  image_url : Option String
  playlist_name : Option String
  player_name : Option String
  time_range : Option String
  time_label : Option String
deriving DecidableEq

/-- The empty `data` dictionary. -/
def QData.empty : QData :=
  ⟨[], [], [], none, none, none, none, none⟩

/-- A generated quiz question dictionary.  `qtype` is the `'type'` key;
`question` is the prompt text.  Option entries are `Option String` because
the generators insert field values that may be `None`. -/
structure Question where
  id : String
  qtype : String
  question : String
  options : List (Option String)
  correct_answer : Val
  data : QData
deriving DecidableEq

/-! ### Answer grader (`calculate_quiz_results`, app.py lines 431–495) -/

/-- One entry of `question_results`. -/
structure QuestionResult where
  question_id : String
  question : String
  user_answer : Val
  correct_answer : Val
  is_correct : Bool
deriving DecidableEq

/-- The dictionary returned by `calculate_quiz_results`. -/
structure QuizResults where
  score : Nat
  total : Nat
  percentage : ℚ
  question_results : List QuestionResult
  feedback : String
deriving DecidableEq

/-- The `correct_order` a drag-drop comparison resolves to (app.py 447–455):
a string starting with `'['` is `json.loads`-parsed, falling back to
`data['correct_order']` on a parse error; a list is used as is; anything
else falls back to `data['correct_order']`. -/
def resolveCorrectOrder (q : Question) : List Nat :=
  match q.correct_answer with
  | .vstr s =>
    if pyStartsWith s "[" then
      match jsonParseNatList s with
      | some l => l
      | none => q.data.correct_order
    else q.data.correct_order
  | .vlist l => l
  | .vnone => q.data.correct_order

/-- The per-question comparison of app.py lines 443–461, given the raw
submitted value (`none` when absent, in which case `.get` supplied `''`). -/
def isCorrectAnswer (q : Question) (user_answer : Val) : Bool :=
  if q.qtype = "drag_drop" then
    (match user_answer with | .vlist l => l | _ => []) = resolveCorrectOrder q
  else if q.qtype = "true_false" then
    pyLower (pyStr user_answer) = pyLower (pyStr q.correct_answer)
  else
    pyLower (pyStrip (pyStr user_answer)) = pyLower (pyStrip (pyStr q.correct_answer))

/-- `get_feedback_message` (app.py 486–495). -/
def get_feedback_message (percentage : ℚ) : String :=
  if percentage ≥ 90 then "Outstanding! You know your music taste inside and out! 🎵"
  else if percentage ≥ 70 then "Great job! You\x27re really in tune with your listening habits! 🎶"
  else if percentage ≥ 50 then "Not bad! You know your music, but there\x27s always more to discover! 🎧"
  else "Keep exploring! Your music taste is always evolving! 🎼"

/-- `calculate_quiz_results(answers, questions)` (app.py 431–484).  The
answers dict is an association list; `answers.get(question_id, '')` is
`dictGet` with default `.vstr ""`. -/
def calculate_quiz_results (answers : List (String × Val)) (questions : List Question) :
    QuizResults :=
  let question_results := questions.map (fun q =>
    let user_answer := (dictGet answers q.id).getD (.vstr "")
    { question_id := q.id
      question := q.question
      user_answer := user_answer
      correct_answer := q.correct_answer
      is_correct := isCorrectAnswer q user_answer })
  let correct_count := (question_results.filter (·.is_correct)).length
  let total_questions := questions.length
  let score_percentage : ℚ :=
    if 0 < total_questions then (correct_count : ℚ) / total_questions * 100 else 0
  { score := correct_count
    total := total_questions
    percentage := pyRound1 score_percentage
    question_results := question_results
    feedback := get_feedback_message score_percentage }

/-! ### C1: grading the extracted correct answers scores 100% -/

/-- The answer extracted from a question itself: for `drag_drop` the
canonical correct-order sequence (parsed from the serialized
`correct_answer` when necessary, exactly as the grader resolves it), for
every other type the question's own `correct_answer` value. -/
def canonicalAnswer (q : Question) : Val :=
  if q.qtype = "drag_drop" then .vlist (resolveCorrectOrder q) else q.correct_answer

theorem isCorrectAnswer_canonical (q : Question) :
    isCorrectAnswer q (canonicalAnswer q) = true := by
  by_cases h : q.qtype = "drag_drop"
  · simp [canonicalAnswer, isCorrectAnswer, h]
  · by_cases h2 : q.qtype = "true_false" <;> simp [canonicalAnswer, isCorrectAnswer, h, h2]

theorem pyRound1_hundred : pyRound1 100 = 100 := by
  unfold pyRound1 pyRoundEven
  norm_num

/-- C1: for every non-empty question list graded against the answer map that
assigns to each question id that question's own correct answer (for
`drag_drop`, the canonical correct-order sequence, parsed from its
serialized string form if necessary), `calculate_quiz_results` yields
`percentage = 100.0`. -/
theorem grading_extracted_answers_yields_100
    (questions : List Question) (answers : List (String × Val))
    (hne : questions ≠ [])
    (hans : ∀ q ∈ questions, dictGet answers q.id = some (canonicalAnswer q)) :
    (calculate_quiz_results answers questions).percentage = 100 := by
  have hall : ∀ r ∈ questions.map (fun q =>
      let user_answer := (dictGet answers q.id).getD (.vstr "")
      ({ question_id := q.id
         question := q.question
         user_answer := user_answer
         correct_answer := q.correct_answer
         is_correct := isCorrectAnswer q user_answer } : QuestionResult)),
      r.is_correct = true := by
    intro r hr
    obtain ⟨q, hq, rfl⟩ := List.mem_map.mp hr
    simp only [hans q hq, Option.getD_some]
    exact isCorrectAnswer_canonical q
  unfold calculate_quiz_results
  simp only [List.filter_eq_self.mpr hall, List.length_map]
  have hlen : 0 < questions.length := List.length_pos.mpr hne
  simp only [hlen, if_true, reduceIte]
  have hq0 : (questions.length : ℚ) ≠ 0 := by positivity
  rw [div_self hq0, one_mul]
  exact pyRound1_hundred

/-- A concrete question used to witness the grading theorems. -/
def witnessQ : Question :=
  { id := "q1"
    qtype := "fill_blank"
    question := "What is the name of this playlist?"
    options := []
    correct_answer := .vstr "Chill"
    data := QData.empty }

/-- Witness for C1 at a concrete one-question quiz. -/
theorem grading_extracted_answers_yields_100_witness :
    ([witnessQ] ≠ ([] : List Question))
    ∧ (calculate_quiz_results [("q1", Val.vstr "Chill")] [witnessQ]).percentage = 100 :=
  ⟨by decide,
   grading_extracted_answers_yields_100 [witnessQ] [("q1", Val.vstr "Chill")]
     (by decide) (by decide)⟩

/-! ### C9: grading with missing / reordered / unknown answer keys -/

theorem dictGet_nil (k : String) : dictGet ([] : List (String × α)) k = none := rfl

theorem dictGet_cons (p : String × α) (m : List (String × α)) (k : String) :
    dictGet (p :: m) k = if p.1 = k then some p.2 else dictGet m k := by
  by_cases h : p.1 = k <;> simp [dictGet, List.find?_cons, h]

theorem dictGet_eq_none_iff (m : List (String × α)) (k : String) :
    dictGet m k = none ↔ k ∉ m.map Prod.fst := by
  induction m with
  | nil => simp [dictGet]
  | cons p t ih =>
    rw [dictGet_cons]
    by_cases h : p.1 = k
    · simp [h]
    · have h' : ¬k = p.1 := fun e => h e.symm
      rw [if_neg h, ih]
      simp [h']

theorem mem_of_dictGet {m : List (String × α)} {k : String} {v : α}
    (h : dictGet m k = some v) : (k, v) ∈ m := by
  induction m with
  | nil => simp [dictGet] at h
  | cons p t ih =>
    rw [dictGet_cons] at h
    by_cases hp : p.1 = k
    · simp only [hp, if_true, reduceIte, Option.some.injEq] at h
      obtain ⟨a, b⟩ := p
      simp only at hp h
      subst hp
      subst h
      exact List.mem_cons_self _ _
    · simp only [hp, if_false, reduceIte] at h
      exact List.mem_cons_of_mem _ (ih h)

theorem dictGet_of_mem_nodup {m : List (String × α)} {k : String} {v : α}
    (hnd : (m.map Prod.fst).Nodup) (hm : (k, v) ∈ m) : dictGet m k = some v := by
  induction m with
  | nil => simp at hm
  | cons p t ih =>
    simp only [List.map_cons, List.nodup_cons] at hnd
    rcases List.mem_cons.mp hm with h | h
    · subst h
      simp [dictGet_cons]
    · have hk : p.1 ≠ k := by
        intro hkk
        exact hnd.1 (hkk ▸ List.mem_map.mpr ⟨(k, v), h, rfl⟩)
      rw [dictGet_cons, if_neg hk]
      exact ih hnd.2 h

theorem dictGet_perm {m m' : List (String × α)} (hnd : (m.map Prod.fst).Nodup)
    (hp : m.Perm m') (k : String) : dictGet m k = dictGet m' k := by
  cases h : dictGet m k with
  | some v => exact (dictGet_of_mem_nodup ((hp.map Prod.fst).nodup_iff.mp hnd)
      (hp.mem_iff.mp (mem_of_dictGet h))).symm
  | none =>
    have := (dictGet_eq_none_iff m k).mp h
    exact ((dictGet_eq_none_iff m' k).mpr (fun hk =>
      this ((hp.map Prod.fst).mem_iff.mpr hk))).symm

theorem calculate_quiz_results_congr {answers answers' : List (String × Val)}
    (questions : List Question)
    (h : ∀ q ∈ questions, dictGet answers q.id = dictGet answers' q.id) :
    calculate_quiz_results answers questions = calculate_quiz_results answers' questions := by
  have hm : questions.map (fun q =>
        let user_answer := (dictGet answers q.id).getD (.vstr "")
        ({ question_id := q.id
           question := q.question
           user_answer := user_answer
           correct_answer := q.correct_answer
           is_correct := isCorrectAnswer q user_answer } : QuestionResult))
      = questions.map (fun q =>
        let user_answer := (dictGet answers' q.id).getD (.vstr "")
        ({ question_id := q.id
           question := q.question
           user_answer := user_answer
           correct_answer := q.correct_answer
           is_correct := isCorrectAnswer q user_answer } : QuestionResult)) :=
    List.map_congr_left (fun q hq => by simp only [h q hq])
  unfold calculate_quiz_results
  rw [hm]

theorem pyLower_eq_empty_iff (s : String) : pyLower s = "" ↔ s = "" := by
  cases s with
  | mk d => simp [pyLower, String.ext_iff]

/-- A question whose stored correct answer is the empty string (e.g. a
`fill_blank` built from a playlist whose name is `''`). -/
def emptyAnswerQ : Question :=
  { id := "q1"
    qtype := "fill_blank"
    question := "What is the name of this playlist?"
    options := []
    correct_answer := .vstr ""
    data := QData.empty }

/-- C9 counterexample: grading a question whose id is absent from the answer
map does treat the submission as the empty string, but when the question's
own correct answer is also the empty string the comparison succeeds, so the
question is marked `is_correct = true`, not `false` as the claim states. -/
theorem missing_answer_not_always_incorrect :
    (calculate_quiz_results [] [emptyAnswerQ]).question_results.map
      (fun r => r.is_correct) = [true] := by decide

theorem pyStrip_empty : pyStrip "" = "" := rfl

theorem pyStr_vstr_empty : pyStr (.vstr "") = "" := rfl

theorem pyStrip_eq_empty_of_eq_empty {s : String} (h : s = "") : pyStrip s = "" := by
  subst h; rfl

theorem pyLower_pyStr_vstr_empty : pyLower (pyStr (.vstr "")) = "" := rfl

theorem pyLowerStrip_vstr_empty : pyLower (pyStrip (pyStr (.vstr ""))) = "" := rfl

/-- C9 amended: a question whose id is absent from the answer map is graded
exactly as if the empty string had been submitted — `is_correct = false`
whenever the question's correct answer is non-empty after stripping (for
`drag_drop`, whenever the resolved correct order is non-empty), though an
empty correct answer grades as correct; no error is ever signalled (the
grader is total).  The aggregate result is invariant under reordering of the
answer map's keys, and keys not matching any question id are ignored. -/
theorem grading_missing_reorder_unknown
    (questions : List Question) (answers answers' : List (String × Val))
    (k : String) (v : Val) (i : Nat) (q : Question) :
    (questions[i]? = some q → dictGet answers q.id = none →
      ((calculate_quiz_results answers questions).question_results[i]?.map
          (fun r => r.user_answer) = some (.vstr "")
        ∧ (calculate_quiz_results answers questions).question_results[i]?.map
            (fun r => r.is_correct) = some (isCorrectAnswer q (.vstr ""))
        ∧ (q.qtype = "drag_drop" → resolveCorrectOrder q ≠ [] →
            (calculate_quiz_results answers questions).question_results[i]?.map
              (fun r => r.is_correct) = some false)
        ∧ (q.qtype ≠ "drag_drop" → pyStrip (pyStr q.correct_answer) ≠ "" →
            (calculate_quiz_results answers questions).question_results[i]?.map
              (fun r => r.is_correct) = some false)))
    ∧ ((answers.map Prod.fst).Nodup → answers.Perm answers' →
        calculate_quiz_results answers questions = calculate_quiz_results answers' questions)
    ∧ ((∀ q' ∈ questions, q'.id ≠ k) →
        calculate_quiz_results ((k, v) :: answers) questions
          = calculate_quiz_results answers questions) := by
  refine ⟨fun hq hmiss => ?_, fun hnd hp => ?_, fun hk => ?_⟩
  · have hres : (calculate_quiz_results answers questions).question_results[i]?
        = some { question_id := q.id
                 question := q.question
                 user_answer := Val.vstr ""
                 correct_answer := q.correct_answer
                 is_correct := isCorrectAnswer q (.vstr "") } := by
      unfold calculate_quiz_results
      simp only [List.getElem?_map, hq, Option.map_some', hmiss, Option.getD_none]
    refine ⟨by simp [hres], by simp [hres], fun hd hord => ?_, fun hd hcne => ?_⟩
    · simp only [hres, Option.map_some', Option.some.injEq]
      unfold isCorrectAnswer
      rw [if_pos hd]
      exact decide_eq_false (fun hh => hord hh.symm)
    · simp only [hres, Option.map_some', Option.some.injEq]
      have hne' : pyStr q.correct_answer ≠ "" := by
        intro h
        exact hcne (pyStrip_eq_empty_of_eq_empty h)
      by_cases ht : q.qtype = "true_false"
      · have hlow : pyLower (pyStr q.correct_answer) ≠ "" := by
          intro h
          exact hne' ((pyLower_eq_empty_iff _).mp h)
        unfold isCorrectAnswer
        rw [if_neg hd, if_pos ht]
        exact decide_eq_false (fun hh => hlow (hh.symm.trans pyLower_pyStr_vstr_empty))
      · have hlow : pyLower (pyStrip (pyStr q.correct_answer)) ≠ "" := by
          intro h
          exact hcne ((pyLower_eq_empty_iff _).mp h)
        unfold isCorrectAnswer
        rw [if_neg hd, if_neg ht]
        exact decide_eq_false (fun hh => hlow (hh.symm.trans pyLowerStrip_vstr_empty))
  · exact calculate_quiz_results_congr questions
      (fun q _ => dictGet_perm hnd hp q.id)
  · refine (calculate_quiz_results_congr questions ?_).symm
    intro q hq
    rw [dictGet_cons, if_neg (fun e => hk q hq e.symm)]

/-- Witness for the amended C9 statement at concrete inputs: a missing
answer for a question with non-empty correct answer grades false; swapping
two answer keys leaves the result unchanged; an unknown key is ignored. -/
theorem grading_missing_reorder_unknown_witness :
    ((calculate_quiz_results [] [witnessQ]).question_results[0]?.map
        (fun r => r.is_correct) = some false)
    ∧ calculate_quiz_results [("a", Val.vstr "1"), ("b", Val.vstr "2")] [witnessQ]
        = calculate_quiz_results [("b", Val.vstr "2"), ("a", Val.vstr "1")] [witnessQ]
    ∧ calculate_quiz_results [("zz", Val.vstr "x")] [witnessQ]
        = calculate_quiz_results [] [witnessQ] := by
  refine ⟨?_, ?_, ?_⟩
  · exact ((grading_missing_reorder_unknown [witnessQ] [] [] "zz" (.vstr "x") 0 witnessQ).1
      (by decide) (by decide)).2.2.2 (by decide) (by decide)
  · exact (grading_missing_reorder_unknown [witnessQ] [("a", Val.vstr "1"), ("b", Val.vstr "2")]
      [("b", Val.vstr "2"), ("a", Val.vstr "1")] "zz" (.vstr "x") 0 witnessQ).2.1
      (by decide) (by decide)
  · exact (grading_missing_reorder_unknown [witnessQ] [] [] "zz" (.vstr "x") 0 witnessQ).2.2
      (by decide)

/-! ### Lobby state machine (app.py / models.py)

Timestamps (`DateTime` columns) are modelled as integers; nullable columns
are `Option`.  The `answers` Text column stores a JSON object which the
handlers immediately parse / re-serialize, so it is carried here in parsed
form.  Error responses and uncaught Python exceptions are `PyErr`. -/

inductive PyErr where
  /-- 404 `Lobby not found` (or other missing entity). -/
  | notFound
  /-- 400 `Game has already started`. -/
  | gameAlreadyStarted
  /-- 400 `Need at least one participant to start`. -/
  | needParticipant
  /-- 400 `Missing question_id or answer`. -/
  | missingField
  /-- Uncaught `NameError: name 'random' is not defined`. -/
  | nameErrorRandomNotDefined
  /-- Uncaught `IndexError` (e.g. `random.choice` on an empty sequence). -/
  | indexError
deriving DecidableEq

/-- A row of the `lobbies` table (models.py 188–201). -/
structure Lobby where
  id : String
  host_user_id : Option String
  status : String
  created_at : Int
  started_at : Option Int
  selected_player_ids : Option (List String)
  current_question : Int
deriving DecidableEq

/-- A row of the `lobby_participants` table (models.py 223–236). -/
structure LobbyParticipant where
  id : Nat
  lobby_id : String
  user_id : String
  game_name : String
  joined_at : Int
  score : Int
  completed_at : Option Int
  current_question : Int
  answers : Option (List (String × Val))
  question_submitted : Int
deriving DecidableEq

/-! ### C3: per-question answer submission (app.py 665–699) -/

/-- `submit_question_answer` for an authenticated participant of the lobby.
`question_id` / `answer` / `question_index` are the request-body fields read
with `data.get(...)` (`question_index` defaults to 0 at the call site).
`if not question_id or answer is None` rejects a missing or empty
`question_id` and a missing or null `answer`.  On success the answer is
merged into the participant's answer map and `current_question` and
`question_submitted` are both assigned (not max-ed) to `question_index`. -/
def submit_question_answer (participant : LobbyParticipant)
    (question_id : Option String) (answer : Option Val) (question_index : Int) :
    Except PyErr LobbyParticipant :=
  match question_id, answer with
  | some qid, some ans =>
    if qid = "" ∨ ans = .vnone then .error .missingField
    else
      let answers_dict := participant.answers.getD []
      .ok { participant with
              answers := some (dictSet answers_dict qid ans)
              current_question := question_index
              question_submitted := question_index }
  | _, _ => .error .missingField

theorem dictGet_map_overwrite (m : List (String × α)) (k : String) (v : α)
    (h : (m.find? (fun p => p.1 = k)).isSome) :
    dictGet (m.map (fun p => if p.1 = k then (k, v) else p)) k = some v := by
  induction m with
  | nil => simp at h
  | cons p t ih =>
    by_cases hp : p.1 = k
    · simp [dictGet_cons, hp]
    · rw [List.map_cons, if_neg hp, dictGet_cons, if_neg hp]
      apply ih
      simpa [List.find?_cons, hp] using h

theorem dictGet_append_single (m : List (String × α)) (k : String) (v : α)
    (h : dictGet m k = none) :
    dictGet (m ++ [(k, v)]) k = some v := by
  induction m with
  | nil => simp [dictGet_cons]
  | cons p t ih =>
    rw [dictGet_cons] at h
    by_cases hp : p.1 = k
    · simp [hp] at h
    · rw [List.cons_append, dictGet_cons, if_neg hp]
      exact ih (by simpa [hp] using h)

theorem dictGet_dictSet_self (m : List (String × α)) (k : String) (v : α) :
    dictGet (dictSet m k v) k = some v := by
  unfold dictSet
  by_cases h : (m.find? (fun p => p.1 = k)).isSome
  · rw [if_pos h]
    exact dictGet_map_overwrite m k v h
  · rw [if_neg h]
    apply dictGet_append_single
    unfold dictGet
    rw [Option.not_isSome_iff_eq_none.mp h]
    rfl

/-- A participant who has already submitted up to question index 5. -/
def participant5 : LobbyParticipant :=
  { id := 1, lobby_id := "ABC123", user_id := "u1", game_name := "Ann",
    joined_at := 0, score := 0, completed_at := none, current_question := 5,
    answers := some [("q6", .vstr "x")], question_submitted := 5 }

/-- C3 counterexample: a participant whose `question_submitted` is 5 submits
an answer carrying `questionIndex = 2`; the engine overwrites
`question_submitted` with 2, strictly below its previous value, so
`lastSubmittedIndex` is not monotonically non-decreasing. -/
theorem question_submitted_can_decrease :
    (submit_question_answer participant5 (some "q3") (some (.vstr "B")) 2).toOption.map
        (fun p => p.question_submitted) = some 2
    ∧ participant5.question_submitted = 5 := by decide

/-- C3 amended: a successful per-question submission merges the answer into
the participant's answer map (overwriting any prior answer for the same
question id) and assigns `lastSubmittedIndex` (`question_submitted`) exactly
the submitted `questionIndex` — hence it is at least `questionIndex`, but it
is NOT monotone: a later submission with a smaller index lowers it. -/
theorem submit_assigns_exact_index (p : LobbyParticipant) (qid : String) (ans : Val)
    (i : Int) (hqid : qid ≠ "") (hans : ans ≠ .vnone) :
    (submit_question_answer p (some qid) (some ans) i).toOption.map
        (fun p' => p'.question_submitted) = some i
    ∧ (submit_question_answer p (some qid) (some ans) i).toOption.map
        (fun p' => dictGet (p'.answers.getD []) qid) = some (some ans) := by
  have hcond : ¬(qid = "" ∨ ans = Val.vnone) := not_or.mpr ⟨hqid, hans⟩
  simp only [submit_question_answer]
  rw [if_neg hcond]
  refine ⟨rfl, ?_⟩
  show some (dictGet (dictSet (p.answers.getD []) qid ans) qid) = some (some ans)
  rw [dictGet_dictSet_self]

/-- Witness for the amended C3 statement at a concrete submission. -/
theorem submit_assigns_exact_index_witness :
    (submit_question_answer participant5 (some "q3") (some (.vstr "B")) 2).toOption.map
        (fun p' => p'.question_submitted) = some 2
    ∧ (submit_question_answer participant5 (some "q3") (some (.vstr "B")) 2).toOption.map
        (fun p' => dictGet (p'.answers.getD []) "q3") = some (some (.vstr "B")) :=
  submit_assigns_exact_index participant5 "q3" (.vstr "B") 2 (by decide) (by decide)

/-! ### C6: leaderboard ordering (app.py 728–737 and 362–384)

Both `get_leaderboard` and the `results` page order participants with
`ORDER BY score DESC, completed_at ASC`.  The application's default
database is SQLite (app.py 26–30 fall back to a `sqlite:///` URL when
`DATABASE_URL` is unset), and in SQLite `NULL` sorts **before** every
non-NULL value in ascending order, so a participant with no
`completed_at` comes first among equal scores.  `ORDER BY` is modelled as
sorting with the corresponding row comparison. -/

/-- SQLite comparison for `completed_at ASC` on a nullable column:
NULL is smaller than everything. -/
def sqliteAscLEOpt : Option Int → Option Int → Bool
  | none, _ => true
  | some _, none => false
  | some a, some b => a ≤ b

/-- Row comparison of `ORDER BY score DESC, completed_at ASC`. -/
def leaderboardLE (p q : LobbyParticipant) : Bool :=
  if p.score = q.score then sqliteAscLEOpt p.completed_at q.completed_at
  else q.score < p.score

/-- `get_leaderboard` / the `results` leaderboard: the participant rows of
the lobby, ordered by the query above. -/
def get_leaderboard (participants : List LobbyParticipant) : List LobbyParticipant :=
  participants.insertionSort (fun a b => leaderboardLE a b = true)

/-- The ordering the claim asserts: score descending, ties by completion
timestamp ascending with NULL timestamps after all non-NULL ones. -/
def claimOrderLE (p q : LobbyParticipant) : Bool :=
  if p.score = q.score then
    match p.completed_at, q.completed_at with
    | some a, some b => a ≤ b
    | some _, none => true
    | none, some _ => false
    | none, none => true
  else q.score < p.score

/-- Equal score, never completed. -/
def pNoTimestamp : LobbyParticipant :=
  { id := 1, lobby_id := "ABC123", user_id := "u1", game_name := "Null",
    joined_at := 0, score := 5, completed_at := none, current_question := 0,
    answers := none, question_submitted := 0 }

/-- Equal score, completed at time 100. -/
def pCompleted : LobbyParticipant :=
  { id := 2, lobby_id := "ABC123", user_id := "u2", game_name := "Done",
    joined_at := 0, score := 5, completed_at := some 100, current_question := 0,
    answers := none, question_submitted := 0 }

/-- C6 counterexample: at equal score, the participant with NULL
`completed_at` sorts *before* the timestamped one (SQLite `ASC` places
NULLs first), so the leaderboard is not ordered as the claim states. -/
theorem leaderboard_nulls_sort_first :
    get_leaderboard [pCompleted, pNoTimestamp] = [pNoTimestamp, pCompleted]
    ∧ ¬ List.Pairwise (fun a b => claimOrderLE a b = true)
        (get_leaderboard [pCompleted, pNoTimestamp]) := by decide

theorem sqliteAscLEOpt_trans {x y z : Option Int}
    (h1 : sqliteAscLEOpt x y = true) (h2 : sqliteAscLEOpt y z = true) :
    sqliteAscLEOpt x z = true := by
  cases x <;> cases y <;> cases z <;> simp_all [sqliteAscLEOpt] <;> omega

theorem sqliteAscLEOpt_total (x y : Option Int) :
    sqliteAscLEOpt x y = true ∨ sqliteAscLEOpt y x = true := by
  cases x <;> cases y <;> simp_all [sqliteAscLEOpt] <;> omega

theorem leaderboardLE_trans {a b c : LobbyParticipant}
    (h1 : leaderboardLE a b = true) (h2 : leaderboardLE b c = true) :
    leaderboardLE a c = true := by
  unfold leaderboardLE at h1 h2 ⊢
  by_cases hab : a.score = b.score
  · rw [if_pos hab] at h1
    by_cases hbc : b.score = c.score
    · rw [if_pos hbc] at h2
      rw [if_pos (hab.trans hbc)]
      exact sqliteAscLEOpt_trans h1 h2
    · rw [if_neg hbc] at h2
      have h2' : c.score < b.score := of_decide_eq_true h2
      have hac : ¬a.score = c.score := by omega
      rw [if_neg hac]
      exact decide_eq_true (by omega)
  · rw [if_neg hab] at h1
    have h1' : b.score < a.score := of_decide_eq_true h1
    by_cases hbc : b.score = c.score
    · have hac : ¬a.score = c.score := by omega
      rw [if_neg hac]
      exact decide_eq_true (by omega)
    · rw [if_neg hbc] at h2
      have h2' : c.score < b.score := of_decide_eq_true h2
      have hac : ¬a.score = c.score := by omega
      rw [if_neg hac]
      exact decide_eq_true (by omega)

theorem leaderboardLE_total (a b : LobbyParticipant) :
    leaderboardLE a b = true ∨ leaderboardLE b a = true := by
  unfold leaderboardLE
  by_cases hab : a.score = b.score
  · rw [if_pos hab, if_pos hab.symm]
    exact sqliteAscLEOpt_total a.completed_at b.completed_at
  · rw [if_neg hab, if_neg (fun e => hab e.symm)]
    rcases lt_or_gt_of_ne hab with h | h
    · exact Or.inr (decide_eq_true h)
    · exact Or.inl (decide_eq_true h)

/-- C6 amended: the leaderboard is the participant list ordered by score
descending with ties broken by completion timestamp ascending, where a NULL
completion timestamp sorts **before** (not after) every timestamped
participant of the same score — the SQLite NULLS-FIRST semantics of
`completed_at ASC`; it is a permutation of the participant rows. -/
theorem leaderboard_sorted_nulls_first (participants : List LobbyParticipant) :
    (get_leaderboard participants).Perm participants
    ∧ List.Pairwise (fun a b => leaderboardLE a b = true)
        (get_leaderboard participants) := by
  constructor
  · exact List.perm_insertionSort _ participants
  · haveI : IsTotal LobbyParticipant (fun a b => leaderboardLE a b = true) :=
      ⟨leaderboardLE_total⟩
    haveI : IsTrans LobbyParticipant (fun a b => leaderboardLE a b = true) :=
      ⟨fun _ _ _ => leaderboardLE_trans⟩
    exact List.sorted_insertionSort _ participants

/-! ### C7: starting a lobby (app.py 611–648)

`start_lobby_game` checks, in order: lobby exists (else 404), status is
`waiting` (else 400 `Game has already started`), at least one participant
(else 400).  It then executes `random.sample(participants, min(4,
len(participants)))` — but app.py's imports (lines 1–16) never import
`random`, and no name `random` is bound in the module or builtins, so this
expression raises an uncaught `NameError: name 'random' is not defined`;
the handler has no try/except, the request fails with a 500, and the lobby
is never selected/activated.  The unreachable remainder of the handler is
therefore not modelled. -/

def start_lobby_game (lobby : Option Lobby) (participants : List LobbyParticipant) :
    Except PyErr (Lobby × List String) :=
  match lobby with
  | none => .error .notFound
  | some l =>
    if l.status ≠ "waiting" then .error .gameAlreadyStarted
    else if participants.length < 1 then .error .needParticipant
    else .error .nameErrorRandomNotDefined

/-- A lobby still in `waiting` state. -/
def waitingLobby : Lobby :=
  { id := "ABC123", host_user_id := none, status := "waiting", created_at := 0,
    started_at := none, selected_player_ids := none, current_question := 0 }

/-- Six joined participants for `waitingLobby`. -/
def sixParticipants : List LobbyParticipant :=
  (List.range 6).map (fun n =>
    { id := n + 1, lobby_id := "ABC123", user_id := "u" ++ pyStrNat (n + 1),
      game_name := "P" ++ pyStrNat (n + 1), joined_at := 0, score := 0,
      completed_at := none, current_question := 0, answers := none,
      question_submitted := 0 })

/-- C7, evaluated at the claim's scenario: starting a waiting lobby with six
joined participants reaches the `random.sample` call and dies with the
uncaught `NameError` (`random` is never imported in app.py), so no
participants are selected and the status never flips to `active`; a start
call against a non-waiting lobby is rejected with the
`Game has already started` error before that point. -/
theorem start_lobby_game_raises_nameerror :
    start_lobby_game (some waitingLobby) sixParticipants
        = .error .nameErrorRandomNotDefined
    ∧ start_lobby_game (some { waitingLobby with status := "active" }) sixParticipants
        = .error .gameAlreadyStarted := ⟨rfl, rfl⟩

/-! ### C10: advancing the current question (app.py 739–749) -/

/-- `Lobby.query.get(lobby_id)`. -/
def lobbyGet (store : List Lobby) (lobby_id : String) : Option Lobby :=
  store.find? (fun l => l.id = lobby_id)

/-- `next_question`: 404 when the lobby does not exist; otherwise increment
`current_question` unconditionally (no status or range check) and return
the new value. -/
def next_question (store : List Lobby) (lobby_id : String) :
    Except PyErr (Lobby × Int) :=
  match lobbyGet store lobby_id with
  | none => .error .notFound
  | some l =>
    let l' := { l with current_question := l.current_question + 1 }
    .ok (l', l'.current_question)

/-- C10: for every lobby store and code, the advance operation succeeds and
increments `currentQuestionIndex` by exactly one whenever the lobby exists —
regardless of its status (waiting, active or finished) and with no upper
bound tied to the number of questions — and errors (404) exactly when the
lobby does not exist.  The rest of the lobby row is untouched. -/
theorem next_question_increments_iff_exists
    (store : List Lobby) (lobby_id : String) :
    (∀ l, lobbyGet store lobby_id = some l →
      next_question store lobby_id
        = .ok ({ l with current_question := l.current_question + 1 },
               l.current_question + 1))
    ∧ (lobbyGet store lobby_id = none →
        next_question store lobby_id = .error .notFound) := by
  constructor
  · intro l h
    unfold next_question
    rw [h]
  · intro h
    unfold next_question
    rw [h]

/-- A finished lobby already past index 11. -/
def finishedLobby : Lobby :=
  { id := "ZZZ999", host_user_id := none, status := "finished", created_at := 0,
    started_at := some 10, selected_player_ids := some ["u1"],
    current_question := 11 }

/-- Witness for C10 at a concrete store: advancing a `finished` lobby at
index 11 succeeds and moves it to 12. -/
theorem next_question_increments_iff_exists_witness :
    next_question [finishedLobby] "ZZZ999"
      = .ok ({ finishedLobby with current_question := 11 + 1 }, 11 + 1) :=
  (next_question_increments_iff_exists [finishedLobby] "ZZZ999").1
    finishedLobby (by decide)

/-! ### Round trip: `json.loads(str(list(range(n)))) = list(range(n))`

The drag-drop generators store `correct_answer = str(correct_order)` and the
grader parses it back with `json.loads`; these lemmas show the serialization
parses back to the original list. -/

theorem digitCh_toNat {d : Nat} (h : d < 10) : (digitCh d).toNat = 48 + d := by
  interval_cases d <;> decide

theorem digitCh_isDigit {d : Nat} (h : d < 10) : (digitCh d).isDigit = true := by
  interval_cases d <;> decide

theorem isDigit_ne_comma_space {c : Char} (h : c.isDigit = true) :
    c ≠ ',' ∧ c ≠ ' ' := by
  constructor <;> intro he <;> subst he <;> simp at h

theorem natToDecimalAux_spec :
    ∀ fuel n, n ≤ fuel →
      natToDecimalAux fuel n ≠ []
        ∧ (∀ c ∈ natToDecimalAux fuel n, c.isDigit = true) := by
  intro fuel
  induction fuel with
  | zero =>
    intro n hn
    have : n = 0 := by omega
    subst this
    exact ⟨by simp [natToDecimalAux], by
      intro c hc
      rw [natToDecimalAux, List.mem_singleton] at hc
      subst hc
      exact digitCh_isDigit (by omega)⟩
  | succ fuel ih =>
    intro n hn
    rw [natToDecimalAux]
    split
    · refine ⟨by simp, ?_⟩
      intro c hc
      rw [List.mem_singleton] at hc
      subst hc
      exact digitCh_isDigit (by omega)
    · rename_i h10
      have hd : n / 10 ≤ fuel := by omega
      refine ⟨by simp, ?_⟩
      intro c hc
      rcases List.mem_append.mp hc with h | h
      · exact (ih (n / 10) hd).2 c h
      · rw [List.mem_singleton] at h
        subst h
        exact digitCh_isDigit (Nat.mod_lt _ (by omega))

theorem natToDecimal_ne_nil (n : Nat) : natToDecimal n ≠ [] :=
  (natToDecimalAux_spec n n le_rfl).1

theorem natToDecimal_all_digits (n : Nat) : ∀ c ∈ natToDecimal n, c.isDigit = true :=
  (natToDecimalAux_spec n n le_rfl).2

theorem digitsVal_append_single (xs : List Char) (c : Char) :
    digitsVal (xs ++ [c]) = digitsVal xs * 10 + (c.toNat - 48) := by
  unfold digitsVal
  rw [List.foldl_append]
  rfl

theorem digitsVal_natToDecimalAux :
    ∀ fuel n, n ≤ fuel → digitsVal (natToDecimalAux fuel n) = n := by
  intro fuel
  induction fuel with
  | zero =>
    intro n hn
    have : n = 0 := by omega
    subst this
    rfl
  | succ fuel ih =>
    intro n hn
    rw [natToDecimalAux]
    split
    · rename_i h
      show digitsVal ([] ++ [digitCh n]) = n
      rw [digitsVal_append_single, digitCh_toNat h]
      simp [digitsVal]
    · rename_i h
      rw [digitsVal_append_single, ih (n / 10) (by omega),
        digitCh_toNat (Nat.mod_lt _ (by omega))]
      omega

theorem digitsVal_natToDecimal (n : Nat) : digitsVal (natToDecimal n) = n :=
  digitsVal_natToDecimalAux n n le_rfl

theorem dropWhile_eq_self_of_not {p : α → Bool} :
    ∀ {l : List α}, (∀ c ∈ l, p c = false) → l.dropWhile p = l
  | [], _ => rfl
  | c :: cs, h => by
    rw [List.dropWhile_cons, h c (List.mem_cons_self c cs)]
    simp

theorem trimSpaces_of_no_space {cs : List Char} (h : ∀ c ∈ cs, c ≠ ' ') :
    trimSpaces cs = cs := by
  unfold trimSpaces
  have hb : ∀ c ∈ cs, (fun c => decide (c = ' ')) c = false := by
    intro c hc
    simpa using h c hc
  rw [dropWhile_eq_self_of_not hb,
    dropWhile_eq_self_of_not (by intro c hc; exact hb c (List.mem_reverse.mp hc)),
    List.reverse_reverse]

theorem chunkToNat_natToDecimal (n : Nat) : chunkToNat (natToDecimal n) = some n := by
  unfold chunkToNat
  rw [trimSpaces_of_no_space (fun c hc =>
    (isDigit_ne_comma_space (natToDecimal_all_digits n c hc)).2)]
  rw [if_pos ⟨natToDecimal_ne_nil n,
    List.all_eq_true.mpr (fun c hc => natToDecimal_all_digits n c hc)⟩]
  rw [digitsVal_natToDecimal]

theorem chunkToNat_space_natToDecimal (n : Nat) :
    chunkToNat (' ' :: natToDecimal n) = some n := by
  unfold chunkToNat
  have h1 : trimSpaces (' ' :: natToDecimal n) = trimSpaces (natToDecimal n) := by
    unfold trimSpaces
    rw [List.dropWhile_cons]
    simp
  rw [h1]
  rw [trimSpaces_of_no_space (fun c hc =>
    (isDigit_ne_comma_space (natToDecimal_all_digits n c hc)).2)]
  rw [if_pos ⟨natToDecimal_ne_nil n,
    List.all_eq_true.mpr (fun c hc => natToDecimal_all_digits n c hc)⟩]
  rw [digitsVal_natToDecimal]

theorem splitCharOn_no_sep {sep : Char} :
    ∀ {xs : List Char}, (∀ c ∈ xs, c ≠ sep) → splitCharOn sep xs = [xs]
  | [], _ => rfl
  | c :: xs, h => by
    rw [splitCharOn, if_neg (h c (List.mem_cons_self c xs))]
    rw [splitCharOn_no_sep (fun d hd => h d (List.mem_cons_of_mem c hd))]

theorem splitCharOn_append_sep {sep : Char} :
    ∀ {xs ys : List Char}, (∀ c ∈ xs, c ≠ sep) →
      splitCharOn sep (xs ++ sep :: ys) = xs :: splitCharOn sep ys
  | [], ys, _ => by rw [List.nil_append, splitCharOn, if_pos rfl]
  | c :: xs, ys, h => by
    rw [List.cons_append, splitCharOn, if_neg (h c (List.mem_cons_self c xs))]
    rw [splitCharOn_append_sep (fun d hd => h d (List.mem_cons_of_mem c hd))]

/-- The characters between the brackets of `str(l)`. -/
def midChars : List Nat → List Char
  | [] => []
  | [n] => natToDecimal n
  | n :: m :: rest => natToDecimal n ++ ',' :: ' ' :: midChars (m :: rest)

theorem pyJoinComma_data :
    ∀ l : List Nat, (pyJoinComma (l.map pyStrNat)).data = midChars l
  | [] => rfl
  | [n] => rfl
  | n :: m :: rest => by
    show (pyStrNat n ++ ", " ++ pyJoinComma ((m :: rest).map pyStrNat)).data = _
    rw [String.data_append, String.data_append, pyJoinComma_data (m :: rest)]
    show natToDecimal n ++ [',', ' '] ++ midChars (m :: rest) = _
    rw [midChars]
    simp

theorem pyStrList_data (l : List Nat) :
    (pyStrList l).data = '[' :: (midChars l ++ [']']) := by
  unfold pyStrList
  rw [String.data_append, String.data_append, pyJoinComma_data l]
  rfl

theorem splitCharOn_midChars :
    ∀ (n : Nat) (rest : List Nat),
      splitCharOn ',' (midChars (n :: rest))
        = natToDecimal n :: rest.map (fun m => ' ' :: natToDecimal m)
  | n, [] => by
    rw [midChars, splitCharOn_no_sep (fun c hc =>
      (isDigit_ne_comma_space (natToDecimal_all_digits n c hc)).1)]
    rfl
  | n, m :: rest => by
    rw [midChars, splitCharOn_append_sep (fun c hc =>
      (isDigit_ne_comma_space (natToDecimal_all_digits n c hc)).1)]
    have ih := splitCharOn_midChars m rest
    rw [splitCharOn, if_neg (show ¬(' ' = ',') by decide), ih]
    rfl

theorem midChars_ne_nil (n : Nat) (rest : List Nat) : midChars (n :: rest) ≠ [] := by
  cases rest <;> simp [midChars, natToDecimal_ne_nil n]

theorem mapM_space_chunks :
    ∀ rest : List Nat,
      (rest.map (fun m => ' ' :: natToDecimal m)).mapM chunkToNat = some rest
  | [] => rfl
  | m :: rest => by
    rw [List.map_cons, List.mapM_cons, chunkToNat_space_natToDecimal,
      mapM_space_chunks rest]
    rfl

theorem mapM_chunks (n : Nat) (rest : List Nat) :
    (natToDecimal n :: rest.map (fun m => ' ' :: natToDecimal m)).mapM chunkToNat
      = some (n :: rest) := by
  rw [List.mapM_cons, chunkToNat_natToDecimal, mapM_space_chunks rest]
  rfl

theorem jsonParseNatList_pyStrList (l : List Nat) :
    jsonParseNatList (pyStrList l) = some l := by
  cases l with
  | nil => decide
  | cons n rest =>
    unfold jsonParseNatList
    rw [pyStrList_data, parseBracketList, if_pos rfl, List.reverse_append]
    show parseBracketInner (']' :: (midChars (n :: rest)).reverse) = some (n :: rest)
    rw [parseBracketInner, if_pos rfl]
    simp only [List.reverse_reverse]
    rw [if_neg (midChars_ne_nil n rest), splitCharOn_midChars n rest,
      mapM_chunks n rest]

/-! ### Template catalog and single-player generator
(template_question_generator.py)

The concrete catalog file `question_templates.json` is not under src/; the
`Template` shape below carries exactly the keys the generator code reads.
An `Option` field models a key some templates lack: reading a missing key
with `template[...]` raises `KeyError`, which the generator's try/except
turns into a skipped attempt, while `template.get(...)` supplies a default.
`get_user_data` reads the database; its result dictionary is the `UserData`
argument here.  Each instantiation function returns the built question (or
`none` for every skipped/caught path) with the advanced draw cursor. -/

structure Template where
  data_source : String
  field : String
  /-- The `'template'` key: the prompt format string. -/
  text : String
  rank_range : Option (Nat × Nat)
  count : Option Nat
  /-- The `'correct_answer'` key: the multiple-choice answer policy. -/
  correct_answer : Option String
  check_type : Option String
  top_n : Option Nat
deriving DecidableEq

/-- Python truthiness of a `.get(field)` value: not `None`, not `''`. -/
def truthy (v : Option String) : Bool := v ≠ none ∧ v ≠ some ""

/-- One bounded step of placeholder replacement (structural in the fuel so
that concrete prompts evaluate). -/
def replaceSubAux (pat rep : List Char) : Nat → List Char → List Char
  | 0, _ => []
  | _ + 1, [] => []
  | fuel + 1, c :: cs =>
    if pat.isPrefixOf (c :: cs) ∧ pat ≠ [] then
      rep ++ replaceSubAux pat rep fuel (List.drop (pat.length - 1) cs)
    else c :: replaceSubAux pat rep fuel cs

/-- Python `pat.format(key=val)` for one named placeholder: replace every
occurrence of `{key}` by `val`. -/
def pyFormat (pat key val : String) : String :=
  String.mk (replaceSubAux ("\x7b" ++ key ++ "\x7d").data val.data pat.data.length pat.data)

/-- A dictionary literal `{'name': v}` as a row. -/
def mkNameRec (v : Option String) : Rec := ⟨fun k => if k = "name" then v else none, none⟩

/-- `generate_placement_question` (template_question_generator.py 34–80). -/
def generate_placement_question (tpl : Template) (user_data : UserData)
    (s : Nat → Nat) (c : Nat) : Option Question × Nat :=
  let data := user_data.get tpl.data_source
  match tpl.rank_range with
  | none => (none, c)
  | some (lo, hi) =>
    if data.isEmpty || data.length < hi then (none, c)
    else
      match pyRandint lo (min hi data.length) (s c) with
      | none => (none, c)
      | some rank =>
        match data[rank - 1]? with
        | none => (none, c)
        | some correct_item =>
          let correct_answer := correct_item.attrs tpl.field
          let wrong_options := (data.filter (fun item =>
            truthy (item.attrs tpl.field) && item.attrs tpl.field ≠ correct_answer)).map
              (fun item => item.attrs tpl.field)
          if wrong_options.length ≥ 3 then
            let (extra, c1) := pySample s 3 (c + 1) wrong_options
            let (options, c2) := pyShuffle s c1 (correct_answer :: extra)
            let question_text := pyFormat tpl.text "rank" (pyStrNat rank)
            let image_urls :=
              if tpl.data_source = "top_artists" then
                options.foldl (fun acc option =>
                  match data.find? (fun a => a.attrs "name" == option) with
                  | some artist =>
                    match artist.attrs "image_url" with
                    | some u => if u ≠ "" then acc ++ [(option, u)] else acc
                    | none => acc
                  | none => acc) []
              else []
            (some { id := ""
                    qtype := "placement"
                    question := question_text
                    options := options
                    correct_answer := match correct_answer with
                                      | some v => .vstr v
                                      | none => .vnone
                    data := { QData.empty with image_urls := image_urls } }, c2)
          else if wrong_options.length > 0 then
            let (options, c2) := pyShuffle s (c + 1) (correct_answer :: wrong_options)
            let question_text := pyFormat tpl.text "rank" (pyStrNat rank)
            let image_urls :=
              if tpl.data_source = "top_artists" then
                options.foldl (fun acc option =>
                  match data.find? (fun a => a.attrs "name" == option) with
                  | some artist =>
                    match artist.attrs "image_url" with
                    | some u => if u ≠ "" then acc ++ [(option, u)] else acc
                    | none => acc
                  | none => acc) []
              else []
            (some { id := ""
                    qtype := "placement"
                    question := question_text
                    options := options
                    correct_answer := match correct_answer with
                                      | some v => .vstr v
                                      | none => .vnone
                    data := { QData.empty with image_urls := image_urls } }, c2)
          else (none, c + 1)

/-- The true/false question dictionary (template_question_generator.py 141–147). -/
def tfQuestion (question_text : String) (correct_answer : String) : Question :=
  { id := "", qtype := "true_false", question := question_text, options := [],
    correct_answer := .vstr correct_answer, data := QData.empty }

/-- The `check_type == 'in_top_n'` override of the picked item
(template_question_generator.py 114–124 for artists, 127–136 for tracks):
a genuine item from the top-N window when asserting truth, a genuine item
outside it when fabricating; `'Unknown'` when the respective pool is empty. -/
def inTopNOverride (tpl : Template) (user_data : UserData) (source : String)
    (is_true : Bool) (item : Rec) (s : Nat → Nat) (c : Nat) : Rec × Nat :=
  if tpl.check_type = some "in_top_n" then
    let top_n := tpl.top_n.getD 10
    let names := ((user_data.get source).take top_n).map (fun a => a.attrs "name")
    if is_true then
      if names.isEmpty then (mkNameRec (some "Unknown"), c)
      else
        match pyChoice names (s c) with
        | some v => (mkNameRec v, c + 1)
        | none => (mkNameRec (some "Unknown"), c)
    else
      let outside_top := (user_data.get source).filter
        (fun a => !(names.contains (a.attrs "name")))
      if outside_top.isEmpty then (mkNameRec (some "Unknown"), c)
      else
        match pyChoice outside_top (s c) with
        | some r => (mkNameRec (r.attrs "name"), c + 1)
        | none => (mkNameRec (some "Unknown"), c)
  else (item, c)

/-- `generate_true_false_question` (template_question_generator.py 83–147).
With probability 1/2 a genuine item is picked, otherwise a fake name
`Fake {Album|Track|Playlist} {1000–9999}` is synthesized (never checked
against the data).  The placeholder occurring in the template text selects
the formatting branch; `in_top_n` templates override the pick. -/
def generate_true_false_question (tpl : Template) (user_data : UserData)
    (s : Nat → Nat) (c : Nat) : Option Question × Nat :=
  let data := user_data.get tpl.data_source
  if data.isEmpty then (none, c)
  else
    match pyChoice [true, false] (s c) with
    | none => (none, c)
    | some is_true =>
      let pick : Option (Rec × String × Nat) :=
        if is_true then
          match pyChoice data (s (c + 1)) with
          | none => none
          | some item => some (item, "true", c + 2)
        else
          match pyChoice ["Album", "Track", "Playlist"] (s (c + 1)),
                pyRandint 1000 9999 (s (c + 2)) with
          | some kind, some num =>
            some (mkNameRec (some ("Fake " ++ kind ++ " " ++ pyStrNat num)), "false", c + 3)
          | _, _ => none
      match pick with
      | none => (none, c)
      | some (item, correct_answer, c1) =>
        if pyContains tpl.text "album_name" then
          (some (tfQuestion
            (pyFormat tpl.text "album_name" ((item.attrs "name").getD "Unknown"))
            correct_answer), c1)
        else if pyContains tpl.text "track_name" && pyContains tpl.text "artist_name" then
          (some (tfQuestion
            (pyFormat (pyFormat tpl.text "track_name" ((item.attrs "name").getD "Unknown"))
              "artist_name" ((item.attrs "artist").getD "Unknown Artist"))
            correct_answer), c1)
        else if pyContains tpl.text "playlist_name" then
          (some (tfQuestion
            (pyFormat tpl.text "playlist_name" ((item.attrs "name").getD "Unknown"))
            correct_answer), c1)
        else if pyContains tpl.text "artist_name" then
          let r := inTopNOverride tpl user_data "top_artists" is_true item s c1
          (some (tfQuestion
            (pyFormat tpl.text "artist_name" ((r.1.attrs "name").getD "Unknown"))
            correct_answer), r.2)
        else if pyContains tpl.text "track_name" then
          let r := inTopNOverride tpl user_data "top_tracks" is_true item s c1
          (some (tfQuestion
            (pyFormat tpl.text "track_name" ((r.1.attrs "name").getD "Unknown"))
            correct_answer), r.2)
        else
          (some (tfQuestion tpl.text correct_answer), c1)

/-- `generate_drag_drop_question` (template_question_generator.py 150–191):
take the first `count` rows in stored (rank) order; the correct answer is
the serialized identity permutation.  Consumes no draws. -/
def generate_drag_drop_question (tpl : Template) (user_data : UserData) :
    Option Question :=
  let data := user_data.get tpl.data_source
  let count := tpl.count.getD 5
  if data.isEmpty || data.length < count then none
  else
    let items := data.take count
    let question_items := items.map (fun item =>
      ({ name := item.attrs tpl.field
         image_url := item.attrs "image_url"
         artist := item.attrs "artist"
         track_id := if tpl.data_source = "top_tracks" then item.attrs "track_id"
                     else none } : QItem))
    let correct_order := List.range question_items.length
    some { id := ""
           qtype := "drag_drop"
           question := tpl.text
           options := []
           correct_answer := .vstr (pyStrList correct_order)
           data := { QData.empty with
                       items := question_items
                       correct_order := correct_order } }

/-- `generate_fill_blank_question` (template_question_generator.py 194–220). -/
def generate_fill_blank_question (tpl : Template) (user_data : UserData)
    (s : Nat → Nat) (c : Nat) : Option Question × Nat :=
  let data := user_data.get tpl.data_source
  if data.isEmpty then (none, c)
  else
    match pyChoice data (s c) with
    | none => (none, c)
    | some item =>
      let correct_answer := item.attrs tpl.field
      (some { id := ""
              qtype := "fill_blank"
              question := tpl.text
              options := []
              correct_answer := match correct_answer with
                                | some v => .vstr v
                                | none => .vnone
              data := { QData.empty with
                          image_url := item.attrs "image_url"
                          playlist_name := if tpl.data_source = "playlists"
                                           then correct_answer else none } }, c + 1)

/-- The common tail of `generate_multiple_choice_question`
(template_question_generator.py 268–278): shuffle the options and build the
question dictionary. -/
def mcBuild (tpl : Template) (correct : String) (options : List (Option String))
    (s : Nat → Nat) (c : Nat) : Option Question × Nat :=
  let r := pyShuffle s c options
  (some { id := ""
          qtype := "multiple_choice"
          question := tpl.text
          options := r.1
          correct_answer := .vstr correct
          data := QData.empty }, r.2)

/-- `generate_multiple_choice_question` (template_question_generator.py
223–278), with its three answer policies (`rank_1`, `higher_rank`, default
random sample). -/
def generate_multiple_choice_question (tpl : Template) (user_data : UserData)
    (s : Nat → Nat) (c : Nat) : Option Question × Nat :=
  let data := user_data.get tpl.data_source
  let count := tpl.count.getD 4
  if data.isEmpty || data.length < count then (none, c)
  else if tpl.correct_answer = some "rank_1" then
    match data[0]? with
    | none => (none, c)
    | some correct_item =>
      match correct_item.attrs tpl.field with
      | none => (none, c)
      | some v =>
        if v = "" then (none, c)
        else
          let r := pySample s (min (count - 1) (data.length - 1)) c (data.drop 1)
          let options := some v :: (r.1.filter (fun item => truthy (item.attrs tpl.field))).map
            (fun item => item.attrs tpl.field)
          if options.length < count then (none, r.2)
          else mcBuild tpl v options s r.2
  else if tpl.correct_answer = some "higher_rank" then
    let r := pySample s (min count data.length) c data
    let selected := r.1.insertionSort
      (fun x y => x.rank.getD 999 ≤ y.rank.getD 999)
    match selected[0]? with
    | none => (none, r.2)
    | some correct_item =>
      match correct_item.attrs tpl.field with
      | none => (none, r.2)
      | some v =>
        if v = "" then (none, r.2)
        else
          let options := (selected.filter (fun item => truthy (item.attrs tpl.field))).map
            (fun item => item.attrs tpl.field)
          if options.length < count then (none, r.2)
          else mcBuild tpl v options s r.2
  else
    let r := pySample s count c data
    match r.1[0]? with
    | none => (none, r.2)
    | some correct_item =>
      match correct_item.attrs tpl.field with
      | none => (none, r.2)
      | some v =>
        if v = "" then (none, r.2)
        else
          let options := (r.1.filter (fun item => truthy (item.attrs tpl.field))).map
            (fun item => item.attrs tpl.field)
          if options.length < count then (none, r.2)
          else mcBuild tpl v options s r.2

/-- The loaded catalog `load_templates()`: type-family name to its template
list, in the JSON file's key order. -/
abbrev Catalog := List (String × List Template)

/-- The per-type dispatch of the attempt body (template_question_generator.py
320–329, identical at 351–360); an unrecognized type name produces no
question. -/
def dispatchGenerate (question_type : String) (tpl : Template) (user_data : UserData)
    (s : Nat → Nat) (c : Nat) : Option Question × Nat :=
  if question_type = "placement" then generate_placement_question tpl user_data s c
  else if question_type = "true_false" then generate_true_false_question tpl user_data s c
  else if question_type = "drag_drop" then (generate_drag_drop_question tpl user_data, c)
  else if question_type = "fill_blank" then generate_fill_blank_question tpl user_data s c
  else if question_type = "multiple_choice" then
    generate_multiple_choice_question tpl user_data s c
  else (none, c)

/-- The first attempt loop of `generate_questions`
(template_question_generator.py 299–337): while fewer than `num_questions`
questions and attempts remain, pick a type family — preferring families with
`type_counts` zero — then a template, instantiate, and on success append the
question with its sequential id and bump the family count.  The fuel is the
remaining attempt budget; the result also carries the unspent budget. -/
def generalLoop1 (templates : Catalog) (question_types : List String)
    (user_data : UserData) (s : Nat → Nat) (num_questions : Nat) :
    Nat → List Question → List (String × Nat) → Nat →
    Except PyErr (List Question × List (String × Nat) × Nat × Nat)
  | 0, qs, counts, c => .ok (qs, counts, c, 0)
  | fuel + 1, qs, counts, c =>
    if qs.length < num_questions then
      let unused_types := question_types.filter (fun t => (dictGet counts t).getD 0 = 0)
      let pickList := if unused_types.isEmpty then question_types else unused_types
      match pyChoice pickList (s c) with
      | none => .error .indexError
      | some question_type =>
        let type_templates := (dictGet templates question_type).getD []
        if type_templates.isEmpty then
          generalLoop1 templates question_types user_data s num_questions
            fuel qs counts (c + 1)
        else
          match pyChoice type_templates (s (c + 1)) with
          | none => .error .indexError
          | some tpl =>
            let r := dispatchGenerate question_type tpl user_data s (c + 2)
            match r.1 with
            | some q =>
              generalLoop1 templates question_types user_data s num_questions fuel
                (qs ++ [{ q with id := "q" ++ pyStrNat (qs.length + 1) }])
                (dictSet counts question_type
                  ((dictGet counts question_type).getD 0 + 1))
                r.2
            | none =>
              generalLoop1 templates question_types user_data s num_questions
                fuel qs counts r.2
    else .ok (qs, counts, c, fuel + 1)

/-- The fallback attempt loop (template_question_generator.py 340–366):
same body without the unused-family priority or count bookkeeping. -/
def generalLoop2 (templates : Catalog) (question_types : List String)
    (user_data : UserData) (s : Nat → Nat) (num_questions : Nat) :
    Nat → List Question → Nat → Except PyErr (List Question × Nat)
  | 0, qs, c => .ok (qs, c)
  | fuel + 1, qs, c =>
    if qs.length < num_questions then
      match pyChoice question_types (s c) with
      | none => .error .indexError
      | some question_type =>
        let type_templates := (dictGet templates question_type).getD []
        if type_templates.isEmpty then
          generalLoop2 templates question_types user_data s num_questions fuel qs (c + 1)
        else
          match pyChoice type_templates (s (c + 1)) with
          | none => .error .indexError
          | some tpl =>
            let r := dispatchGenerate question_type tpl user_data s (c + 2)
            match r.1 with
            | some q =>
              generalLoop2 templates question_types user_data s num_questions fuel
                (qs ++ [{ q with id := "q" ++ pyStrNat (qs.length + 1) }]) r.2
            | none =>
              generalLoop2 templates question_types user_data s num_questions fuel qs r.2
    else .ok (qs, c)

/-- `generate_questions(user_id, num_questions=10)`
(template_question_generator.py 281–368).  `templates` is the catalog loaded
by `load_templates()` (the JSON file is not under src/), `user_data` the
result of `get_user_data(user_id)` and `s` the stream of random draws.  The
type families are shuffled once; the first loop spends up to 50 attempts
preferring unrepresented families; the fallback loop runs the shared attempt
counter to 100. -/
def generate_questions (templates : Catalog) (user_data : UserData)
    (s : Nat → Nat) (num_questions : Nat) : Except PyErr (List Question) :=
  let keys := templates.map Prod.fst
  let shuffled := pyShuffle s 0 keys
  let question_types := shuffled.1
  let counts0 := question_types.map (fun t => (t, 0))
  match generalLoop1 templates question_types user_data s num_questions
    50 [] counts0 shuffled.2 with
  | .error e => .error e
  | .ok (qs, _, c, rem) =>
    match generalLoop2 templates question_types user_data s num_questions
      (50 + rem) qs c with
    | .error e => .error e
    | .ok (qs2, _) => .ok qs2

/-! ### Multiplayer generator (multiplayer_question_generator.py)

`players_data` maps a selected player id to the dictionary
`get_player_data(user_id)` builds (its `top_tracks` / `top_artists`
concatenate all three time ranges, each row carrying its `time_range`).
`player_names_map` is the id-to-display-name dict. -/

/-- f-string rendering of a `.get` result (`None` renders as `"None"`). -/
def pyStrOpt : Option String → String
  | some v => v
  | none => "None"

/-- The `time_range_labels` dict (multiplayer_question_generator.py 56–60). -/
def time_range_labels (tr : String) : String :=
  if tr = "short_term" then "last month"
  else if tr = "medium_term" then "last 6 months"
  else "last year"

/-- The ordinal suffix of the placement prompt
(multiplayer_question_generator.py 101). -/
def ordinalSuffix (rank : Nat) : String :=
  if rank = 1 then "st" else if rank = 2 then "nd"
  else if rank = 3 then "rd" else "th"

/-- One iteration of the `generate_multiplayer_questions` attempt loop
(multiplayer_question_generator.py 67–218), yielding the built question (or
`none` when the attempt falls through every branch or a caught exception
skips it) and the advanced cursor.  `random.choice` on an empty
`selected_player_ids` at the loop head is outside the try and crashes. -/
def mpAttempt (selected_player_ids : List String)
    (player_names_map : List (String × String))
    (players_data : String → UserData)
    (s : Nat → Nat) (c : Nat) : Except PyErr (Option Question × Nat) :=
  match pyChoice selected_player_ids (s c) with
  | none => .error .indexError
  | some player_id =>
    let player_name := (dictGet player_names_map player_id).getD "Player"
    let player_data := players_data player_id
    match pyChoice ["short_term", "medium_term", "long_term"] (s (c + 1)) with
    | none => .error .indexError
    | some time_range =>
      let time_label := time_range_labels time_range
      let player_tracks := player_data.top_tracks.filter
        (fun t => t.attrs "time_range" == some time_range)
      let player_artists := player_data.top_artists.filter
        (fun a => a.attrs "time_range" == some time_range)
      match pyChoice ["placement", "true_false", "multiple_choice",
          "drag_drop", "fill_blank"] (s (c + 2)) with
      | none => .error .indexError
      | some question_type =>
        let c0 := c + 3
        if question_type = "placement" ∧ player_artists.length ≥ 5 then
          match pyRandint 1 (min 20 player_artists.length) (s c0) with
          | none => .ok (none, c0)
          | some rank =>
            match player_artists[rank - 1]? with
            | none => .ok (none, c0 + 1)
            | some correct_artist =>
              let correct_answer := correct_artist.attrs "name"
              let other_artists := (player_artists.filter
                (fun a => a.attrs "name" ≠ correct_answer)).map
                  (fun a => a.attrs "name")
              let r1 := pySample s (min 3 other_artists.length) (c0 + 1) other_artists
              let r2 := pyShuffle s r1.2 (correct_answer :: r1.1)
              .ok (some { id := ""
                          qtype := "placement"
                          question := "What was " ++ player_name ++ "\x27s "
                            ++ pyStrNat rank ++ ordinalSuffix rank
                            ++ " favorite artist (" ++ time_label ++ ")?"
                          options := r2.1
                          correct_answer := match correct_answer with
                                            | some v => .vstr v
                                            | none => .vnone
                          data := { QData.empty with
                                      player_name := some player_name
                                      time_range := some time_range
                                      time_label := some time_label } }, r2.2)
        else if question_type = "true_false" then
          if player_data.albums.length > 0 then
            match pyChoice [true, false] (s c0) with
            | none => .ok (none, c0)
            | some is_true =>
              let pick : Option (Rec × String) :=
                if is_true then
                  match pyChoice player_data.albums (s (c0 + 1)) with
                  | none => none
                  | some album => some (album, "true")
                else
                  match pyRandint 1000 9999 (s (c0 + 1)) with
                  | none => none
                  | some num =>
                    some (mkNameRec (some ("Fake Album " ++ pyStrNat num)), "false")
              match pick with
              | none => .ok (none, c0 + 1)
              | some (album, correct_answer) =>
                .ok (some { id := ""
                            qtype := "true_false"
                            question := "Does " ++ player_name ++ " have the album \x27"
                              ++ pyStrOpt (album.attrs "name") ++ "\x27 saved?"
                            options := []
                            correct_answer := .vstr correct_answer
                            data := { QData.empty with
                                        player_name := some player_name } }, c0 + 2)
          else .ok (none, c0)
        else if question_type = "multiple_choice" ∧ player_tracks.length ≥ 4 then
          match pyChoice selected_player_ids (s c0) with
          | none => .ok (none, c0)
          | some source_player_id =>
            let source_tracks := (players_data source_player_id).top_tracks.filter
              (fun t => t.attrs "time_range" == some time_range)
            if source_tracks.length ≥ 5 then
              match source_tracks[4]? with
              | none => .ok (none, c0 + 1)
              | some track =>
                let track_name := track.attrs "name"
                let players_with_track := selected_player_ids.filter (fun pid =>
                  ((players_data pid).top_tracks.filter
                    (fun t => t.attrs "time_range" == some time_range)).any
                      (fun t => t.attrs "name" == track_name))
                if players_with_track.length > 0 then
                  match pyChoice players_with_track (s (c0 + 1)) with
                  | none => .ok (none, c0 + 1)
                  | some correct_player_id =>
                    let correct_answer :=
                      (dictGet player_names_map correct_player_id).getD "Player"
                    let other_players := (selected_player_ids.filter
                      (fun pid => pid ≠ correct_player_id)).map
                        (fun pid => (dictGet player_names_map pid).getD "Player")
                    let r1 := pySample s (min 3 other_players.length) (c0 + 2)
                      other_players
                    let r2 := pyShuffle s r1.2 (correct_answer :: r1.1)
                    .ok (some { id := ""
                                qtype := "multiple_choice"
                                question := "Who had \x27" ++ pyStrOpt track_name
                                  ++ "\x27 as their 5th favorite track ("
                                  ++ time_label ++ ")?"
                                options := r2.1.map some
                                correct_answer := .vstr correct_answer
                                data := { QData.empty with
                                            time_range := some time_range
                                            time_label := some time_label } }, r2.2)
                else .ok (none, c0 + 1)
            else .ok (none, c0 + 1)
        else if question_type = "drag_drop" ∧ player_tracks.length ≥ 5 then
          let tracks := player_tracks.take 5
          let question_items := tracks.map (fun t =>
            ({ name := t.attrs "name"
               image_url := none
               artist := t.attrs "artist"
               track_id := none } : QItem))
          let correct_order := List.range question_items.length
          .ok (some { id := ""
                      qtype := "drag_drop"
                      question := "Order these tracks by " ++ player_name
                        ++ "\x27s ranking (" ++ time_label ++ "):"
                      options := []
                      correct_answer := .vstr (pyStrList correct_order)
                      data := { QData.empty with
                                  items := question_items
                                  correct_order := correct_order
                                  player_name := some player_name
                                  time_range := some time_range
                                  time_label := some time_label } }, c0)
        else if question_type = "fill_blank" ∧ player_data.playlists.length > 0 then
          match pyChoice player_data.playlists (s c0) with
          | none => .ok (none, c0)
          | some playlist =>
            .ok (some { id := ""
                        qtype := "fill_blank"
                        question := "What is the name of this playlist from "
                          ++ player_name ++ "?"
                        options := []
                        correct_answer := match playlist.attrs "name" with
                                          | some v => .vstr v
                                          | none => .vnone
                        data := { QData.empty with
                                    image_url := playlist.attrs "image_url"
                                    player_name := some player_name } }, c0 + 1)
        else .ok (none, c0)

/-- The attempt loop of `generate_multiplayer_questions`
(multiplayer_question_generator.py 67–218), fuel = remaining attempts. -/
def mpLoop (selected_player_ids : List String)
    (player_names_map : List (String × String))
    (players_data : String → UserData) (s : Nat → Nat) (num_questions : Nat) :
    Nat → List Question → Nat → Except PyErr (List Question)
  | 0, qs, _ => .ok qs
  | fuel + 1, qs, c =>
    if qs.length < num_questions then
      match mpAttempt selected_player_ids player_names_map players_data s c with
      | .error e => .error e
      | .ok (some q, c') =>
        mpLoop selected_player_ids player_names_map players_data s num_questions
          fuel (qs ++ [{ q with id := "q" ++ pyStrNat (qs.length + 1) }]) c'
      | .ok (none, c') =>
        mpLoop selected_player_ids player_names_map players_data s num_questions
          fuel qs c'
    else .ok qs

/-- `generate_multiplayer_questions(lobby_id, selected_player_ids,
player_names_map, num_questions=10)` (multiplayer_question_generator.py
45–220): a flat 100-attempt budget, no fallback pass. -/
def generate_multiplayer_questions (selected_player_ids : List String)
    (player_names_map : List (String × String))
    (players_data : String → UserData) (s : Nat → Nat) (num_questions : Nat) :
    Except PyErr (List Question) :=
  mpLoop selected_player_ids player_names_map players_data s num_questions 100 [] 0


/-! ### C5: every generated drag-drop question's correct answer parses to the
identity permutation of its items list -/

/-- The C5 property of one question. -/
def dragDropIdentity (q : Question) : Prop :=
  q.qtype = "drag_drop" →
    ∃ str, q.correct_answer = .vstr str
      ∧ jsonParseNatList str = some (List.range q.data.items.length)

theorem dragDropIdentity_id (q : Question) (i : String) (h : dragDropIdentity q) :
    dragDropIdentity { q with id := i } := h

theorem generate_drag_drop_question_spec {tpl : Template} {ud : UserData} {q : Question}
    (h : generate_drag_drop_question tpl ud = some q) :
    q.qtype = "drag_drop"
      ∧ q.correct_answer = .vstr (pyStrList (List.range q.data.items.length)) := by
  unfold generate_drag_drop_question at h
  simp only [] at h
  split at h
  · exact absurd h (by simp)
  · rw [Option.some.injEq] at h
    subst h
    exact ⟨rfl, by simp⟩

theorem generate_placement_question_dd {tpl : Template} {ud : UserData}
    {s : Nat → Nat} {c : Nat} {q : Question} {c' : Nat}
    (h : generate_placement_question tpl ud s c = (some q, c')) :
    dragDropIdentity q := by
  unfold generate_placement_question at h
  simp only [] at h
  split at h
  · exact absurd h (by simp)
  · split at h
    · exact absurd h (by simp)
    · split at h
      · exact absurd h (by simp)
      · split at h
        · exact absurd h (by simp)
        · split at h
          · rw [Prod.mk.injEq, Option.some.injEq] at h
            obtain ⟨h1, -⟩ := h
            subst h1
            intro hq
            simp at hq
          · split at h
            · rw [Prod.mk.injEq, Option.some.injEq] at h
              obtain ⟨h1, -⟩ := h
              subst h1
              intro hq
              simp at hq
            · exact absurd h (by simp)

theorem generate_true_false_question_dd {tpl : Template} {ud : UserData}
    {s : Nat → Nat} {c : Nat} {q : Question} {c' : Nat}
    (h : generate_true_false_question tpl ud s c = (some q, c')) :
    dragDropIdentity q := by
  unfold generate_true_false_question at h
  simp only [] at h
  split at h
  · exact absurd h (by simp)
  · split at h
    · exact absurd h (by simp)
    · split at h
      · exact absurd h (by simp)
      · repeat' split at h
        all_goals
          first
            | (rw [Prod.mk.injEq, Option.some.injEq] at h
               obtain ⟨h1, -⟩ := h
               subst h1
               intro hq
               simp [tfQuestion] at hq)
            | exact absurd h (by simp)

theorem generate_fill_blank_question_dd {tpl : Template} {ud : UserData}
    {s : Nat → Nat} {c : Nat} {q : Question} {c' : Nat}
    (h : generate_fill_blank_question tpl ud s c = (some q, c')) :
    dragDropIdentity q := by
  unfold generate_fill_blank_question at h
  simp only [] at h
  repeat' split at h
  all_goals
    first
      | (rw [Prod.mk.injEq, Option.some.injEq] at h
         obtain ⟨h1, -⟩ := h
         subst h1
         intro hq
         simp at hq)
      | exact absurd h (by simp)

theorem mcBuild_dd {tpl : Template} {v : String} {options : List (Option String)}
    {s : Nat → Nat} {c : Nat} {q : Question} {c' : Nat}
    (h : mcBuild tpl v options s c = (some q, c')) :
    dragDropIdentity q := by
  unfold mcBuild at h
  rw [Prod.mk.injEq, Option.some.injEq] at h
  obtain ⟨h1, -⟩ := h
  subst h1
  intro hq
  simp at hq

theorem generate_multiple_choice_question_dd {tpl : Template} {ud : UserData}
    {s : Nat → Nat} {c : Nat} {q : Question} {c' : Nat}
    (h : generate_multiple_choice_question tpl ud s c = (some q, c')) :
    dragDropIdentity q := by
  unfold generate_multiple_choice_question at h
  simp only [] at h
  repeat' split at h
  all_goals
    first
      | exact mcBuild_dd h
      | exact absurd h (by simp)

theorem generate_drag_drop_question_dd {tpl : Template} {ud : UserData} {q : Question}
    (h : generate_drag_drop_question tpl ud = some q) :
    dragDropIdentity q := by
  intro hq
  exact ⟨_, (generate_drag_drop_question_spec h).2, jsonParseNatList_pyStrList _⟩

theorem dispatchGenerate_dd {ty : String} {tpl : Template} {ud : UserData}
    {s : Nat → Nat} {c : Nat} {q : Question} {c' : Nat}
    (h : dispatchGenerate ty tpl ud s c = (some q, c')) :
    dragDropIdentity q := by
  unfold dispatchGenerate at h
  repeat' split at h
  all_goals
    first
      | exact generate_placement_question_dd h
      | exact generate_true_false_question_dd h
      | (rw [Prod.mk.injEq] at h
         exact generate_drag_drop_question_dd h.1)
      | exact generate_fill_blank_question_dd h
      | exact generate_multiple_choice_question_dd h
      | exact absurd h (by simp)

theorem mpAttempt_dd {sel : List String} {names : List (String × String)}
    {pdata : String → UserData} {s : Nat → Nat} {c : Nat} {q : Question} {c' : Nat}
    (h : mpAttempt sel names pdata s c = .ok (some q, c')) :
    dragDropIdentity q := by
  unfold mpAttempt at h
  simp only [] at h
  repeat' split at h
  all_goals (cases h)
  all_goals (intro hq)
  all_goals (try simp at hq)
  all_goals (exact ⟨_, rfl, by simp [jsonParseNatList_pyStrList]⟩)

theorem dispatchGenerate_dd_fst {ty : String} {tpl : Template} {ud : UserData}
    {s : Nat → Nat} {c : Nat} {q : Question}
    (h : (dispatchGenerate ty tpl ud s c).1 = some q) : dragDropIdentity q := by
  have h2 : dispatchGenerate ty tpl ud s c
      = (some q, (dispatchGenerate ty tpl ud s c).2) := by
    rw [← h]
  exact dispatchGenerate_dd h2

theorem generalLoop1_mem {tm : Catalog} {qt : List String} {ud : UserData}
    {s : Nat → Nat} {n : Nat} (P : Question → Prop)
    (hP : ∀ q i, P q → P { q with id := i })
    (hdis : ∀ ty tpl c q, (dispatchGenerate ty tpl ud s c).1 = some q → P q) :
    ∀ fuel qs counts c res,
      generalLoop1 tm qt ud s n fuel qs counts c = .ok res →
      (∀ q ∈ qs, P q) → ∀ q ∈ res.1, P q := by
  intro fuel
  induction fuel with
  | zero =>
    intro qs counts c res h hqs
    rw [generalLoop1] at h
    cases h
    exact hqs
  | succ fuel ih =>
    intro qs counts c res h hqs
    rw [generalLoop1] at h
    simp only [] at h
    split at h
    · split at h
      · cases h
      · split at h
        · exact ih _ _ _ _ h hqs
        · split at h
          · cases h
          · split at h
            · rename_i q' heq
              refine ih _ _ _ _ h ?_
              intro q hq
              rcases List.mem_append.mp hq with hmem | hmem
              · exact hqs q hmem
              · rw [List.mem_singleton] at hmem
                subst hmem
                exact hP _ _ (hdis _ _ _ _ heq)
            · exact ih _ _ _ _ h hqs
    · cases h
      exact hqs

theorem generalLoop2_mem {tm : Catalog} {qt : List String} {ud : UserData}
    {s : Nat → Nat} {n : Nat} (P : Question → Prop)
    (hP : ∀ q i, P q → P { q with id := i })
    (hdis : ∀ ty tpl c q, (dispatchGenerate ty tpl ud s c).1 = some q → P q) :
    ∀ fuel qs c res,
      generalLoop2 tm qt ud s n fuel qs c = .ok res →
      (∀ q ∈ qs, P q) → ∀ q ∈ res.1, P q := by
  intro fuel
  induction fuel with
  | zero =>
    intro qs c res h hqs
    rw [generalLoop2] at h
    cases h
    exact hqs
  | succ fuel ih =>
    intro qs c res h hqs
    rw [generalLoop2] at h
    simp only [] at h
    split at h
    · split at h
      · cases h
      · split at h
        · exact ih _ _ _ h hqs
        · split at h
          · cases h
          · split at h
            · rename_i q' heq
              refine ih _ _ _ h ?_
              intro q hq
              rcases List.mem_append.mp hq with hmem | hmem
              · exact hqs q hmem
              · rw [List.mem_singleton] at hmem
                subst hmem
                exact hP _ _ (hdis _ _ _ _ heq)
            · exact ih _ _ _ h hqs
    · cases h
      exact hqs

theorem generate_questions_mem {tm : Catalog} {ud : UserData} {s : Nat → Nat}
    {n : Nat} {qs : List Question} (P : Question → Prop)
    (hP : ∀ q i, P q → P { q with id := i })
    (hdis : ∀ ty tpl c q, (dispatchGenerate ty tpl ud s c).1 = some q → P q)
    (h : generate_questions tm ud s n = .ok qs) : ∀ q ∈ qs, P q := by
  unfold generate_questions at h
  simp only [] at h
  split at h
  · cases h
  · rename_i qs1 counts1 c1 rem1 heq1
    split at h
    · cases h
    · rename_i qs2 c2 heq2
      cases h
      exact generalLoop2_mem P hP hdis _ _ _ _ heq2
        (generalLoop1_mem P hP hdis _ _ _ _ _ heq1 (by simp))

theorem mpLoop_mem {sel : List String} {names : List (String × String)}
    {pdata : String → UserData} {s : Nat → Nat} {n : Nat} (P : Question → Prop)
    (hP : ∀ q i, P q → P { q with id := i })
    (hatt : ∀ c q c', mpAttempt sel names pdata s c = .ok (some q, c') → P q) :
    ∀ fuel qs c res,
      mpLoop sel names pdata s n fuel qs c = .ok res →
      (∀ q ∈ qs, P q) → ∀ q ∈ res, P q := by
  intro fuel
  induction fuel with
  | zero =>
    intro qs c res h hqs
    rw [mpLoop] at h
    cases h
    exact hqs
  | succ fuel ih =>
    intro qs c res h hqs
    rw [mpLoop] at h
    split at h
    · split at h
      · cases h
      · rename_i q' c'' heq
        refine ih _ _ _ h ?_
        intro q hq
        rcases List.mem_append.mp hq with hmem | hmem
        · exact hqs q hmem
        · rw [List.mem_singleton] at hmem
          subst hmem
          exact hP _ _ (hatt _ _ _ heq)
      · exact ih _ _ _ h hqs
    · cases h
      exact hqs

/-- C5: every `drag_drop` question produced by either generator has a
`correctAnswer` that, parsed, equals the identity permutation
`[0, 1, ..., N-1]`, where `N` is the length of its own `auxData` items
list. -/
theorem dragdrop_correct_answer_identity
    (tm : Catalog) (ud : UserData) (s : Nat → Nat) (n : Nat) (qs : List Question)
    (sel : List String) (names : List (String × String))
    (pdata : String → UserData) (s2 : Nat → Nat) (n2 : Nat) (qs2 : List Question)
    (q : Question)
    (hmem : (generate_questions tm ud s n = .ok qs ∧ q ∈ qs)
      ∨ (generate_multiplayer_questions sel names pdata s2 n2 = .ok qs2 ∧ q ∈ qs2))
    (hdd : q.qtype = "drag_drop") :
    ∃ str, q.correct_answer = .vstr str
      ∧ jsonParseNatList str = some (List.range q.data.items.length) := by
  rcases hmem with ⟨hgen, hq⟩ | ⟨hgen, hq⟩
  · exact generate_questions_mem dragDropIdentity dragDropIdentity_id
      (fun _ _ _ _ h => dispatchGenerate_dd_fst h) hgen q hq hdd
  · exact mpLoop_mem dragDropIdentity dragDropIdentity_id
      (fun _ _ _ h => mpAttempt_dd h) _ _ _ _ hgen (by simp) q hq hdd

/-- A drag-drop template over a two-track partition, for the C5 witness. -/
def dragTpl : Template :=
  { data_source := "top_tracks", field := "name",
    text := "Order these tracks from most to least played:",
    rank_range := none, count := some 2, correct_answer := none,
    check_type := none, top_n := none }

/-- A track row carrying only a name. -/
def dragRec (nm : String) : Rec := ⟨fun k => if k = "name" then some nm else none, none⟩

/-- Listening data with exactly two top tracks. -/
def dragUD : UserData := ⟨[], [], [], [dragRec "A", dragRec "B"], []⟩

/-- The question the witness run produces. -/
def dragQ0 : Question :=
  { id := "q1", qtype := "drag_drop",
    question := "Order these tracks from most to least played:",
    options := [],
    correct_answer := .vstr "[0, 1]",
    data := { QData.empty with
                items := [⟨some "A", none, none, none⟩, ⟨some "B", none, none, none⟩]
                correct_order := [0, 1] } }

/-- Witness for C5: a concrete single-player run emits `dragQ0`, whose
serialized correct answer parses back to `[0, 1] = range 2`. -/
theorem dragdrop_correct_answer_identity_witness :
    ∃ str, dragQ0.correct_answer = Val.vstr str
      ∧ jsonParseNatList str = some (List.range dragQ0.data.items.length) := by
  have hrun : generate_questions [("drag_drop", [dragTpl])] dragUD (fun _ => 0) 1
      = .ok [dragQ0] := by rfl
  exact dragdrop_correct_answer_identity [("drag_drop", [dragTpl])] dragUD
    (fun _ => 0) 1 [dragQ0] [] [] (fun _ => dragUD) (fun _ => 0) 0 [] dragQ0
    (Or.inl ⟨hrun, List.mem_singleton.mpr rfl⟩) rfl

/-! ### C8: the fabricated true/false item versus the real partition -/

theorem pyChoice_mem {xs : List α} {r : Nat} {x : α} (h : pyChoice xs r = some x) :
    x ∈ xs :=
  List.getElem?_mem h

/-- An album row carrying a name. -/
def albumRec (nm : String) : Rec := ⟨fun k => if k = "name" then some nm else none, none⟩

/-- A saved-album true/false template. -/
def tfCexTpl : Template :=
  { data_source := "albums", field := "name",
    text := "Do you have the album \x27\x7balbum_name\x7d\x27 saved?",
    rank_range := none, count := none, correct_answer := none,
    check_type := none, top_n := none }

/-- A library whose one real album happens to be called `Fake Album 1000`. -/
def tfCexUD : UserData := ⟨[albumRec "Fake Album 1000"], [], [], [], []⟩

/-- C8 counterexample: the fabricated branch (`is_true = False`) synthesizes
the name `Fake Album 1000` without checking the data, asserts it in the
prompt with correct answer `false` — yet a record with exactly that name
exists in the queried partition, so the claimed exact-name absence fails
(and the stored correct answer is factually wrong). -/
theorem fabricated_name_can_collide :
    (generate_true_false_question tfCexTpl tfCexUD
        (fun n => [1, 0, 0].getD n 0) 0).1
      = some (tfQuestion "Do you have the album \x27Fake Album 1000\x27 saved?" "false")
    ∧ some "Fake Album 1000"
        ∈ (tfCexUD.get tfCexTpl.data_source).map (fun r => r.attrs "name") := by
  constructor
  · rfl
  · simp [tfCexUD, tfCexTpl, UserData.get, albumRec]

/-- With `check_type ≠ in_top_n` the override is the identity. -/
theorem inTopNOverride_skip {tpl : Template} {ud : UserData} {src : String}
    {b : Bool} {item : Rec} {s : Nat → Nat} {c : Nat}
    (h : tpl.check_type ≠ some "in_top_n") :
    inTopNOverride tpl ud src b item s c = (item, c) := by
  unfold inTopNOverride
  rw [if_neg h]

/-- C8 amended: in the fabricated branch (`is_true = False`) of a template
without the `in_top_n` check, the name asserted in the prompt is the
synthesized `Fake {Album|Track|Playlist} {1000–9999}` string — the code
never compares it against the data, so its absence from the queried
partition holds only under the proviso that no real record carries such a
synthesized name (for `in_top_n` templates the fabricated pick is a genuine
item outside the top-N window instead). -/
theorem fabricated_name_absent_unless_collision
    (tpl : Template) (ud : UserData) (s : Nat → Nat) (c : Nat) (q : Question) (c' : Nat)
    (h : generate_true_false_question tpl ud s c = (some q, c'))
    (hfab : q.correct_answer = .vstr "false")
    (hnotop : tpl.check_type ≠ some "in_top_n")
    (hno : ∀ r ∈ ud.get tpl.data_source, ∀ kind ∈ ["Album", "Track", "Playlist"],
      ∀ num : Nat, 1000 ≤ num → num ≤ 9999 →
        r.attrs "name" ≠ some ("Fake " ++ kind ++ " " ++ pyStrNat num)) :
    ∃ kind ∈ ["Album", "Track", "Playlist"], ∃ num : Nat,
      1000 ≤ num ∧ num ≤ 9999
      ∧ (∀ r ∈ ud.get tpl.data_source,
          r.attrs "name" ≠ some ("Fake " ++ kind ++ " " ++ pyStrNat num))
      ∧ (q = tfQuestion (pyFormat tpl.text "album_name"
            ("Fake " ++ kind ++ " " ++ pyStrNat num)) "false"
        ∨ q = tfQuestion (pyFormat (pyFormat tpl.text "track_name"
            ("Fake " ++ kind ++ " " ++ pyStrNat num)) "artist_name" "Unknown Artist") "false"
        ∨ q = tfQuestion (pyFormat tpl.text "playlist_name"
            ("Fake " ++ kind ++ " " ++ pyStrNat num)) "false"
        ∨ q = tfQuestion (pyFormat tpl.text "artist_name"
            ("Fake " ++ kind ++ " " ++ pyStrNat num)) "false"
        ∨ q = tfQuestion (pyFormat tpl.text "track_name"
            ("Fake " ++ kind ++ " " ++ pyStrNat num)) "false"
        ∨ q = tfQuestion tpl.text "false") := by
  unfold generate_true_false_question at h
  simp only [] at h
  split at h
  · cases h
  · split at h
    · cases h
    · rename_i is_true his
      cases is_true
      · simp only [Bool.false_eq_true, if_false, reduceIte] at h
        split at h
        · cases h
        · rename_i item ca c1 heq
          split at heq
          · rename_i kind num hkind hnum
            cases heq
            have hkmem : kind ∈ ["Album", "Track", "Playlist"] := pyChoice_mem hkind
            have hbounds : 1000 ≤ num ∧ num ≤ 9999 := by
              unfold pyRandint at hnum
              rw [if_pos (by omega)] at hnum
              rw [Option.some.injEq] at hnum
              have := @Nat.mod_lt (s (c + 2)) (9999 + 1 - 1000) (by omega)
              omega
            refine ⟨kind, hkmem, num, hbounds.1, hbounds.2,
              fun r hr => hno r hr kind hkmem num hbounds.1 hbounds.2, ?_⟩
            rw [inTopNOverride_skip hnotop, inTopNOverride_skip hnotop] at h
            simp [mkNameRec] at h
            repeat' split at h
            all_goals cases h
            · exact Or.inl rfl
            · exact Or.inr (Or.inl rfl)
            · exact Or.inr (Or.inr (Or.inl rfl))
            · exact Or.inr (Or.inr (Or.inr (Or.inl rfl)))
            · exact Or.inr (Or.inr (Or.inr (Or.inr (Or.inl rfl))))
            · exact Or.inr (Or.inr (Or.inr (Or.inr (Or.inr rfl))))
          · cases heq
      · simp only [reduceIte] at h
        split at h
        · cases h
        · rename_i item ca c1 heq
          split at heq
          · cases heq
          · rename_i item2 hitem2
            cases heq
            repeat' split at h
            all_goals cases h
            all_goals simp [tfQuestion] at hfab

theorem x_ne_fake (kind : String) (num : Nat) :
    ("X" : String) ≠ "Fake " ++ kind ++ " " ++ pyStrNat num := by
  intro hcontr
  have hlen := congrArg String.length hcontr
  rw [String.length_append, String.length_append, String.length_append] at hlen
  have hx : ("X" : String).length = 1 := rfl
  have h5 : ("Fake " : String).length = 5 := rfl
  have h1 : (" " : String).length = 1 := rfl
  omega

/-- A library whose one album is called `X` (no fake-shaped names). -/
def tfWitUD : UserData := ⟨[albumRec "X"], [], [], [], []⟩

/-- Witness for the amended C8 statement: a concrete fabricated run over a
library with no fake-shaped names asserts `Fake Album 1000`, which indeed
appears nowhere in the queried partition. -/
theorem fabricated_name_absent_unless_collision_witness :
    ∃ kind ∈ ["Album", "Track", "Playlist"], ∃ num : Nat,
      1000 ≤ num ∧ num ≤ 9999
      ∧ (∀ r ∈ tfWitUD.get tfCexTpl.data_source,
          r.attrs "name" ≠ some ("Fake " ++ kind ++ " " ++ pyStrNat num))
      ∧ (tfQuestion "Do you have the album \x27Fake Album 1000\x27 saved?" "false"
            = tfQuestion (pyFormat tfCexTpl.text "album_name"
              ("Fake " ++ kind ++ " " ++ pyStrNat num)) "false"
        ∨ tfQuestion "Do you have the album \x27Fake Album 1000\x27 saved?" "false"
            = tfQuestion (pyFormat (pyFormat tfCexTpl.text "track_name"
              ("Fake " ++ kind ++ " " ++ pyStrNat num)) "artist_name" "Unknown Artist") "false"
        ∨ tfQuestion "Do you have the album \x27Fake Album 1000\x27 saved?" "false"
            = tfQuestion (pyFormat tfCexTpl.text "playlist_name"
              ("Fake " ++ kind ++ " " ++ pyStrNat num)) "false"
        ∨ tfQuestion "Do you have the album \x27Fake Album 1000\x27 saved?" "false"
            = tfQuestion (pyFormat tfCexTpl.text "artist_name"
              ("Fake " ++ kind ++ " " ++ pyStrNat num)) "false"
        ∨ tfQuestion "Do you have the album \x27Fake Album 1000\x27 saved?" "false"
            = tfQuestion (pyFormat tfCexTpl.text "track_name"
              ("Fake " ++ kind ++ " " ++ pyStrNat num)) "false"
        ∨ tfQuestion "Do you have the album \x27Fake Album 1000\x27 saved?" "false"
            = tfQuestion tfCexTpl.text "false") := by
  refine fabricated_name_absent_unless_collision tfCexTpl tfWitUD
    (fun n => [1, 0, 0].getD n 0) 0
    (tfQuestion "Do you have the album \x27Fake Album 1000\x27 saved?" "false") 3
    (by rfl) rfl (by decide) ?_
  intro r hr kind hk num h1 h2
  have hr' : r = albumRec "X" := by
    simpa [tfWitUD, UserData.get, tfCexTpl] using hr
  subst hr'
  intro hcontr
  simp only [albumRec, reduceIte] at hcontr
  rw [Option.some.injEq] at hcontr
  exact x_ne_fake kind num hcontr

/-! ### C2: the multiplayer multiple-choice answer pool -/

/-- A top-track row with a name and a time range. -/
def trackRec (nm tr : String) : Rec :=
  ⟨fun k => if k = "name" then some nm
            else if k = "time_range" then some tr else none, none⟩

/-- Player A: five short-term top tracks `T1`…`T5`. -/
def c2UDA : UserData :=
  ⟨[], [], [],
   [trackRec "T1" "short_term", trackRec "T2" "short_term",
    trackRec "T3" "short_term", trackRec "T4" "short_term",
    trackRec "T5" "short_term"], []⟩

/-- Player B: a single short-term top track also called `T5` (their №1, not
their №5). -/
def c2UDB : UserData := ⟨[], [], [], [trackRec "T5" "short_term"], []⟩

def c2PData : String → UserData := fun pid => if pid = "A" then c2UDA else c2UDB

def c2Sel : List String := ["A", "B"]

def c2Names : List (String × String) := [("A", "Ann"), ("B", "Bea")]

/-- The multiple-choice question the counterexample attempt produces. -/
def c2Q : Question :=
  { id := "", qtype := "multiple_choice",
    question := "Who had \x27T5\x27 as their 5th favorite track (last month)?",
    options := [some "Ann", some "Bea"],
    correct_answer := .vstr "Bea",
    data := { QData.empty with
                time_range := some "short_term"
                time_label := some "last month" } }

/-- C2 counterexample: the attempt asks who had `T5` as their *5th* favorite
track and names Bea as the correct answer — but Bea's short-term partition
has no 5th track at all (she holds `T5` at rank 1): the pool is built from a
name match at any rank, not at the asserted rank. -/
theorem mp_mc_pool_ignores_rank :
    mpAttempt c2Sel c2Names c2PData (fun n => [0, 0, 2, 0, 1, 0, 0].getD n 0) 0
      = .ok (some c2Q, 7)
    ∧ c2Q.correct_answer = .vstr "Bea"
    ∧ (dictGet c2Names "B").getD "Player" = "Bea"
    ∧ ((c2PData "B").top_tracks.filter
        (fun t => t.attrs "time_range" == some "short_term"))[4]? = none := by
  exact ⟨by rfl, rfl, rfl, by rfl⟩

/-- C2 amended: whenever a multiplayer generation attempt produces a
`multiple_choice` question, the participant named as the correct answer is
drawn from the set of selected participants whose time-range track
partition contains a track whose *name* matches the anchor track's name at
**any** rank (not specifically the asserted 5th rank); the anchor is the
5th track of some selected participant's partition for the chosen time
range.  (That pool always contains the anchor's source participant, so the
empty-pool retry of the code is dead.) -/
theorem mp_mc_correct_from_anyrank_pool
    (sel : List String) (names : List (String × String)) (pdata : String → UserData)
    (s : Nat → Nat) (c : Nat) (q : Question) (c' : Nat)
    (h : mpAttempt sel names pdata s c = .ok (some q, c'))
    (hmc : q.qtype = "multiple_choice") :
    ∃ tr ∈ ["short_term", "medium_term", "long_term"],
      ∃ src ∈ sel, ∃ anchor : Rec,
        ((pdata src).top_tracks.filter
            (fun t => t.attrs "time_range" == some tr))[4]? = some anchor
        ∧ ∃ p ∈ sel.filter (fun pid =>
            ((pdata pid).top_tracks.filter
              (fun t => t.attrs "time_range" == some tr)).any
                (fun t => t.attrs "name" == anchor.attrs "name")),
          q.correct_answer = .vstr ((dictGet names p).getD "Player") := by
  unfold mpAttempt at h
  simp only [] at h
  split at h
  · cases h
  · rename_i pid hpid
    split at h
    · cases h
    · rename_i tr htr
      split at h
      · cases h
      · rename_i qt hqt
        split at h
        · repeat' split at h
          all_goals cases h
          all_goals simp at hmc
        · split at h
          · repeat' split at h
            all_goals cases h
            all_goals simp at hmc
          · split at h
            · split at h
              · cases h
              · rename_i src hsrc
                split at h
                · split at h
                  · cases h
                  · rename_i track htrack
                    split at h
                    · split at h
                      · cases h
                      · rename_i p hp
                        cases h
                        exact ⟨tr, pyChoice_mem htr, src, pyChoice_mem hsrc,
                          track, htrack, p, pyChoice_mem hp, rfl⟩
                    · cases h
                · cases h
            · repeat' split at h
              all_goals cases h
              all_goals simp at hmc

/-- Witness for the amended C2 statement at the concrete attempt above. -/
theorem mp_mc_correct_from_anyrank_pool_witness :
    ∃ tr ∈ ["short_term", "medium_term", "long_term"],
      ∃ src ∈ c2Sel, ∃ anchor : Rec,
        ((c2PData src).top_tracks.filter
            (fun t => t.attrs "time_range" == some tr))[4]? = some anchor
        ∧ ∃ p ∈ c2Sel.filter (fun pid =>
            ((c2PData pid).top_tracks.filter
              (fun t => t.attrs "time_range" == some tr)).any
                (fun t => t.attrs "name" == anchor.attrs "name")),
          c2Q.correct_answer = .vstr ((dictGet c2Names p).getD "Player") :=
  mp_mc_correct_from_anyrank_pool c2Sel c2Names c2PData
    (fun n => [0, 0, 2, 0, 1, 0, 0].getD n 0) 0 c2Q 7 (by rfl) rfl

/-! ### C4: the attempt loops' length envelope and totality -/

/-- `random.choice` on a nonempty sequence always yields an element. -/
theorem pyChoice_of_ne_nil {xs : List α} (h : xs ≠ []) (r : Nat) :
    ∃ x, pyChoice xs r = some x := by
  have hlen : 0 < xs.length := List.length_pos.mpr h
  exact ⟨_, List.getElem?_eq_getElem (Nat.mod_lt _ hlen)⟩

/-- The first loop never grows the accumulator beyond `num_questions`
(appends are guarded by the length check). -/
theorem generalLoop1_le {tm : Catalog} {qt : List String} {ud : UserData}
    {s : Nat → Nat} {n : Nat} :
    ∀ fuel qs counts c res,
      generalLoop1 tm qt ud s n fuel qs counts c = .ok res →
      res.1.length ≤ max n qs.length := by
  intro fuel
  induction fuel with
  | zero =>
    intro qs counts c res h
    rw [generalLoop1] at h
    cases h
    exact le_max_right _ _
  | succ fuel ih =>
    intro qs counts c res h
    rw [generalLoop1] at h
    simp only [] at h
    split at h
    · rename_i hlt
      split at h
      · cases h
      · split at h
        · exact ih _ _ _ _ h
        · split at h
          · cases h
          · split at h
            · have h2 := ih _ _ _ _ h
              simp only [List.length_append, List.length_singleton] at h2
              have hle : qs.length + 1 ≤ n := hlt
              rw [Nat.max_eq_left hle] at h2
              exact le_trans h2 (le_max_left _ _)
            · exact ih _ _ _ _ h
    · cases h
      exact le_max_right _ _

/-- The fallback loop never grows the accumulator beyond `num_questions`. -/
theorem generalLoop2_le {tm : Catalog} {qt : List String} {ud : UserData}
    {s : Nat → Nat} {n : Nat} :
    ∀ fuel qs c res,
      generalLoop2 tm qt ud s n fuel qs c = .ok res →
      res.1.length ≤ max n qs.length := by
  intro fuel
  induction fuel with
  | zero =>
    intro qs c res h
    rw [generalLoop2] at h
    cases h
    exact le_max_right _ _
  | succ fuel ih =>
    intro qs c res h
    rw [generalLoop2] at h
    simp only [] at h
    split at h
    · rename_i hlt
      split at h
      · cases h
      · split at h
        · exact ih _ _ _ h
        · split at h
          · cases h
          · split at h
            · have h2 := ih _ _ _ h
              simp only [List.length_append, List.length_singleton] at h2
              have hle : qs.length + 1 ≤ n := hlt
              rw [Nat.max_eq_left hle] at h2
              exact le_trans h2 (le_max_left _ _)
            · exact ih _ _ _ h
    · cases h
      exact le_max_right _ _

/-- The first loop only ever appends: the accumulator is monotone. -/
theorem generalLoop1_ge {tm : Catalog} {qt : List String} {ud : UserData}
    {s : Nat → Nat} {n : Nat} :
    ∀ fuel qs counts c res,
      generalLoop1 tm qt ud s n fuel qs counts c = .ok res →
      qs.length ≤ res.1.length := by
  intro fuel
  induction fuel with
  | zero =>
    intro qs counts c res h
    rw [generalLoop1] at h
    cases h
    exact le_refl _
  | succ fuel ih =>
    intro qs counts c res h
    rw [generalLoop1] at h
    simp only [] at h
    split at h
    · split at h
      · cases h
      · split at h
        · exact ih _ _ _ _ h
        · split at h
          · cases h
          · split at h
            · have h2 := ih _ _ _ _ h
              simp only [List.length_append, List.length_singleton] at h2
              omega
            · exact ih _ _ _ _ h
    · cases h
      exact le_refl _

/-- The fallback loop only ever appends: the accumulator is monotone. -/
theorem generalLoop2_ge {tm : Catalog} {qt : List String} {ud : UserData}
    {s : Nat → Nat} {n : Nat} :
    ∀ fuel qs c res,
      generalLoop2 tm qt ud s n fuel qs c = .ok res →
      qs.length ≤ res.1.length := by
  intro fuel
  induction fuel with
  | zero =>
    intro qs c res h
    rw [generalLoop2] at h
    cases h
    exact le_refl _
  | succ fuel ih =>
    intro qs c res h
    rw [generalLoop2] at h
    simp only [] at h
    split at h
    · split at h
      · cases h
      · split at h
        · exact ih _ _ _ h
        · split at h
          · cases h
          · split at h
            · have h2 := ih _ _ _ h
              simp only [List.length_append, List.length_singleton] at h2
              omega
            · exact ih _ _ _ h
    · cases h
      exact le_refl _

/-- With a nonempty type-family list the first loop cannot raise: both
`random.choice` calls see nonempty sequences. -/
theorem generalLoop1_ok (tm : Catalog) (qt : List String) (ud : UserData)
    (s : Nat → Nat) (n : Nat) (hqt : qt ≠ []) :
    ∀ fuel qs counts c, ∃ res, generalLoop1 tm qt ud s n fuel qs counts c = .ok res := by
  intro fuel
  induction fuel with
  | zero =>
    intro qs counts c
    exact ⟨_, by rw [generalLoop1]⟩
  | succ fuel ih =>
    intro qs counts c
    by_cases hlt : qs.length < n
    · rw [generalLoop1]
      simp only [if_pos hlt]
      have hpl : (if (qt.filter (fun t => (dictGet counts t).getD 0 = 0)).isEmpty
                  then qt
                  else qt.filter (fun t => (dictGet counts t).getD 0 = 0)) ≠ [] := by
        split
        · exact hqt
        · rename_i hns
          intro hcon
          rw [hcon] at hns
          simp at hns
      obtain ⟨question_type, hx⟩ := pyChoice_of_ne_nil hpl (s c)
      simp only [hx]
      by_cases hte : ((dictGet tm question_type).getD []).isEmpty
      · simp only [hte, reduceIte]
        exact ih _ _ _
      · have hte2 : ((dictGet tm question_type).getD []).isEmpty = false := by
          rwa [Bool.not_eq_true] at hte
        have htne : (dictGet tm question_type).getD [] ≠ [] :=
          List.isEmpty_eq_false.mp hte2
        obtain ⟨tpl, htpl⟩ := pyChoice_of_ne_nil htne (s (c + 1))
        simp only [hte2, Bool.false_eq_true, reduceIte, htpl]
        rcases hr : (dispatchGenerate question_type tpl ud s (c + 2)).1 with _ | q
        · simp only [hr]
          exact ih _ _ _
        · simp only [hr]
          exact ih _ _ _
    · rw [generalLoop1]
      simp only [if_neg hlt]
      exact ⟨_, rfl⟩

/-- With a nonempty type-family list the fallback loop cannot raise. -/
theorem generalLoop2_ok (tm : Catalog) (qt : List String) (ud : UserData)
    (s : Nat → Nat) (n : Nat) (hqt : qt ≠ []) :
    ∀ fuel qs c, ∃ res, generalLoop2 tm qt ud s n fuel qs c = .ok res := by
  intro fuel
  induction fuel with
  | zero =>
    intro qs c
    exact ⟨_, by rw [generalLoop2]⟩
  | succ fuel ih =>
    intro qs c
    by_cases hlt : qs.length < n
    · rw [generalLoop2]
      simp only [if_pos hlt]
      obtain ⟨question_type, hx⟩ := pyChoice_of_ne_nil hqt (s c)
      simp only [hx]
      by_cases hte : ((dictGet tm question_type).getD []).isEmpty
      · simp only [hte, reduceIte]
        exact ih _ _
      · have hte2 : ((dictGet tm question_type).getD []).isEmpty = false := by
          rwa [Bool.not_eq_true] at hte
        have htne : (dictGet tm question_type).getD [] ≠ [] :=
          List.isEmpty_eq_false.mp hte2
        obtain ⟨tpl, htpl⟩ := pyChoice_of_ne_nil htne (s (c + 1))
        simp only [hte2, Bool.false_eq_true, reduceIte, htpl]
        rcases hr : (dispatchGenerate question_type tpl ud s (c + 2)).1 with _ | q
        · simp only [hr]
          exact ih _ _
        · simp only [hr]
          exact ih _ _
    · rw [generalLoop2]
      simp only [if_neg hlt]
      exact ⟨_, rfl⟩

/-- `generate_questions` never returns more than `num_questions` questions. -/
theorem generate_questions_le {tm : Catalog} {ud : UserData} {s : Nat → Nat}
    {n : Nat} {qs : List Question}
    (h : generate_questions tm ud s n = .ok qs) : qs.length ≤ n := by
  unfold generate_questions at h
  simp only [] at h
  split at h
  · cases h
  · rename_i qs1 cnts c1 rem heq1
    split at h
    · cases h
    · rename_i qs2 c2 heq2
      cases h
      have h1 := generalLoop1_le _ _ _ _ _ heq1
      simp only [List.length_nil, Nat.max_zero] at h1
      have h2 := generalLoop2_le _ _ _ _ heq2
      rw [Nat.max_eq_left h1] at h2
      exact h2

/-- One iteration of the first loop in which the chosen family's template
instantiates: the question is appended with the next sequential id and the
family's count is bumped. -/
theorem generalLoop1_success_step {tm : Catalog} {qt : List String} {ud : UserData}
    {s : Nat → Nat} {n fuel : Nat} {qs : List Question}
    {counts : List (String × Nat)} {c c2 : Nat} {question_type : String}
    {tpls : List Template} {tpl : Template} {q : Question}
    (hlt : qs.length < n)
    (hpick : pyChoice (if (qt.filter (fun t => (dictGet counts t).getD 0 = 0)).isEmpty
                       then qt
                       else qt.filter (fun t => (dictGet counts t).getD 0 = 0)) (s c)
             = some question_type)
    (htpls : (dictGet tm question_type).getD [] = tpls)
    (htne : tpls.isEmpty = false)
    (htpl : pyChoice tpls (s (c + 1)) = some tpl)
    (hgen : dispatchGenerate question_type tpl ud s (c + 2) = (some q, c2)) :
    generalLoop1 tm qt ud s n (fuel + 1) qs counts c
      = generalLoop1 tm qt ud s n fuel
          (qs ++ [{ q with id := "q" ++ pyStrNat (qs.length + 1) }])
          (dictSet counts question_type
            ((dictGet counts question_type).getD 0 + 1)) c2 := by
  rw [generalLoop1]
  simp only [if_pos hlt, hpick, htpls, htne, Bool.false_eq_true, reduceIte, htpl, hgen]

/-- One draw of `random.sample`: the head pick at an in-range index. -/
theorem pySample_cons {α : Type} {d : List α} {s : Nat → Nat} {c k i : Nat} {x : α}
    (hs : s c = i) (hi : i < d.length) (he : d[i]? = some x) :
    pySample s (k + 1) c d
      = (x :: (pySample s k (c + 1) (d.eraseIdx i)).1,
         (pySample s k (c + 1) (d.eraseIdx i)).2) := by
  rw [pySample, hs, Nat.mod_eq_of_lt hi, he]

/-- `random.sample(data, 4)` when the stream supplies four strictly
descending in-range indices: it returns exactly the rows at those indices,
highest index first, and advances the cursor by four. -/
theorem pySample_four_desc {α : Type} {d : List α} {s : Nat → Nat} {c : Nat}
    {i1 i2 i3 i4 : Nat} {r1 r2 r3 r4 : α}
    (h12 : i1 < i2) (h23 : i2 < i3) (h34 : i3 < i4) (h4 : i4 < d.length)
    (hs0 : s c = i4) (hs1 : s (c + 1) = i3) (hs2 : s (c + 2) = i2)
    (hs3 : s (c + 3) = i1)
    (e4 : d[i4]? = some r4) (e3 : d[i3]? = some r3)
    (e2 : d[i2]? = some r2) (e1 : d[i1]? = some r1) :
    pySample s 4 c d = ([r4, r3, r2, r1], c + 4) := by
  have l1 : (d.eraseIdx i4).length = d.length - 1 := by
    rw [List.length_eraseIdx, if_pos h4]
  have hi3 : i3 < (d.eraseIdx i4).length := by
    rw [l1]; omega
  have l2 : ((d.eraseIdx i4).eraseIdx i3).length = d.length - 2 := by
    rw [List.length_eraseIdx, if_pos hi3, l1]; omega
  have hi2 : i2 < ((d.eraseIdx i4).eraseIdx i3).length := by
    rw [l2]; omega
  have l3 : (((d.eraseIdx i4).eraseIdx i3).eraseIdx i2).length = d.length - 3 := by
    rw [List.length_eraseIdx, if_pos hi2, l2]; omega
  have hi1 : i1 < (((d.eraseIdx i4).eraseIdx i3).eraseIdx i2).length := by
    rw [l3]; omega
  have g3 : (d.eraseIdx i4)[i3]? = some r3 :=
    (List.getElem?_eraseIdx_of_lt d i4 i3 h34).trans e3
  have g2 : ((d.eraseIdx i4).eraseIdx i3)[i2]? = some r2 :=
    (List.getElem?_eraseIdx_of_lt _ i3 i2 h23).trans
      ((List.getElem?_eraseIdx_of_lt d i4 i2 (h23.trans h34)).trans e2)
  have g1 : (((d.eraseIdx i4).eraseIdx i3).eraseIdx i2)[i1]? = some r1 :=
    (List.getElem?_eraseIdx_of_lt _ i2 i1 h12).trans
      (((List.getElem?_eraseIdx_of_lt _ i3 i1 (h12.trans h23)).trans
        ((List.getElem?_eraseIdx_of_lt d i4 i1 ((h12.trans h23).trans h34)).trans e1)))
  have s1 : pySample s 4 c d
      = (r4 :: (pySample s 3 (c + 1) (d.eraseIdx i4)).1,
         (pySample s 3 (c + 1) (d.eraseIdx i4)).2) :=
    pySample_cons hs0 h4 e4
  have s2 : pySample s 3 (c + 1) (d.eraseIdx i4)
      = (r3 :: (pySample s 2 (c + 2) ((d.eraseIdx i4).eraseIdx i3)).1,
         (pySample s 2 (c + 2) ((d.eraseIdx i4).eraseIdx i3)).2) :=
    pySample_cons hs1 hi3 g3
  have s3 : pySample s 2 (c + 2) ((d.eraseIdx i4).eraseIdx i3)
      = (r2 :: (pySample s 1 (c + 3) (((d.eraseIdx i4).eraseIdx i3).eraseIdx i2)).1,
         (pySample s 1 (c + 3) (((d.eraseIdx i4).eraseIdx i3).eraseIdx i2)).2) :=
    pySample_cons hs2 hi2 g2
  have s4 : pySample s 1 (c + 3) (((d.eraseIdx i4).eraseIdx i3).eraseIdx i2)
      = (r1 :: (pySample s 0 (c + 4)
           ((((d.eraseIdx i4).eraseIdx i3).eraseIdx i2).eraseIdx i1)).1,
         (pySample s 0 (c + 4)
           ((((d.eraseIdx i4).eraseIdx i3).eraseIdx i2).eraseIdx i1)).2) :=
    pySample_cons hs3 hi1 g1
  rw [s1, s2, s3, s4]
  rfl

/-- A truthy `.get` value is a nonempty string. -/
theorem truthy_some {o : Option String} (h : truthy o = true) :
    ∃ v, o = some v ∧ v ≠ "" := by
  rcases o with _ | v
  · simp [truthy] at h
  · refine ⟨v, rfl, ?_⟩
    simpa [truthy] using h

/-- Evaluation of `generate_multiple_choice_question` under the default
answer policy when the sample returns four rows whose quoted field is
truthy: it reaches the shuffle-and-build tail with the first sampled row's
value as the correct answer. -/
theorem mc_default_eval {tpl : Template} {ud : UserData} {s : Nat → Nat}
    {c c2 : Nat} {d : List Rec} {r1 r2 r3 r4 : Rec} {v1 v2 v3 v4 : String}
    (hdata : ud.get tpl.data_source = d)
    (hcount : tpl.count = some 4)
    (hca : tpl.correct_answer = none)
    (hfield : tpl.field = "name")
    (hne : d.isEmpty = false) (hlen : ¬ d.length < 4)
    (hsamp : pySample s 4 c d = ([r4, r3, r2, r1], c2))
    (a4 : r4.attrs "name" = some v4) (a3 : r3.attrs "name" = some v3)
    (a2 : r2.attrs "name" = some v2) (a1 : r1.attrs "name" = some v1)
    (hv4 : v4 ≠ "") (hv3 : v3 ≠ "") (hv2 : v2 ≠ "") (hv1 : v1 ≠ "") :
    generate_multiple_choice_question tpl ud s c
      = mcBuild tpl v4 [some v4, some v3, some v2, some v1] s c2 := by
  have u4 : truthy (some v4) = true := by simp [truthy, hv4]
  have u3 : truthy (some v3) = true := by simp [truthy, hv3]
  have u2 : truthy (some v2) = true := by simp [truthy, hv2]
  have u1 : truthy (some v1) = true := by simp [truthy, hv1]
  have hdec : decide (d.length < 4) = false := decide_eq_false hlen
  unfold generate_multiple_choice_question
  rw [hdata, hcount, hca, hfield]
  simp only [Option.getD_some, hne, hdec, Bool.false_or, Bool.false_eq_true,
    reduceIte, reduceCtorEq, hsamp, List.getElem?_cons_zero,
    List.filter_cons, List.filter_nil, List.map_cons, List.map_nil,
    a4, a3, a2, a1, u4, u3, u2, u1, hv4, hv3, hv2, hv1,
    List.length_cons, List.length_nil, Nat.reduceAdd, Nat.reduceLT]

/-- Assembling `generate_questions` from the two loops' results. -/
theorem generate_questions_assemble {tm : Catalog} {ud : UserData} {s : Nat → Nat}
    {n : Nat} {qs1 : List Question} {cnts1 : List (String × Nat)} {c1 rem1 : Nat}
    {qs2 : List Question} {c2 : Nat}
    (h1 : generalLoop1 tm (pyShuffle s 0 (tm.map Prod.fst)).1 ud s n 50 []
        ((pyShuffle s 0 (tm.map Prod.fst)).1.map (fun t => (t, 0)))
        (pyShuffle s 0 (tm.map Prod.fst)).2 = .ok (qs1, cnts1, c1, rem1))
    (h2 : generalLoop2 tm (pyShuffle s 0 (tm.map Prod.fst)).1 ud s n (50 + rem1)
        qs1 c1 = .ok (qs2, c2)) :
    generate_questions tm ud s n = .ok qs2 := by
  unfold generate_questions
  simp only [h1, h2]

/-- Modelled from the spec: the placement template over `top_artists`
(`question_templates.json` is not under src/; §4.3 describes a rank prompt
over the ranked artist partition with rank range 1–10). -/
def placementTplC4 : Template :=
  { data_source := "top_artists", field := "name",
    text := "Who is your #\x7brank\x7d most listened artist?",
    rank_range := some (1, 10), count := none, correct_answer := none,
    check_type := none, top_n := none }

/-- Modelled from the spec: the true/false saved-album template (§4.3's
album existence check, formatted through the `album_name` placeholder). -/
def tfTplC4 : Template :=
  { data_source := "albums", field := "name",
    text := "Do you have the album \x27\x7balbum_name\x7d\x27 saved in your library?",
    rank_range := none, count := none, correct_answer := none,
    check_type := none, top_n := none }

/-- Modelled from the spec: the most-played multiple-choice template with
the `rank_1` answer policy over `top_tracks`. -/
def mcRankTplC4 : Template :=
  { data_source := "top_tracks", field := "name",
    text := "Which of these is your most played track?",
    rank_range := none, count := some 4, correct_answer := some "rank_1",
    check_type := none, top_n := none }

/-- Modelled from the spec: a multiple-choice template with the default
(random sample) answer policy over `top_artists`, four options drawn from
the `name` field. -/
def mcDefaultTplC4 : Template :=
  { data_source := "top_artists", field := "name",
    text := "Which of these artists do you listen to?",
    rank_range := none, count := some 4, correct_answer := none,
    check_type := none, top_n := none }

/-- Modelled from the spec: the drag-drop ordering template over the top-5
tracks. -/
def ddTplC4 : Template :=
  { data_source := "top_tracks", field := "name",
    text := "Order these tracks from most to least played",
    rank_range := none, count := some 5, correct_answer := none,
    check_type := none, top_n := none }

/-- Modelled from the spec: the fill-in-the-blank playlist-name template. -/
def fbTplC4 : Template :=
  { data_source := "playlists", field := "name",
    text := "What is the name of this playlist?",
    rank_range := none, count := none, correct_answer := none,
    check_type := none, top_n := none }

/-- Modelled from the spec: a catalog with the five type families of §4.2
keyed in the JSON file's order, one representative template each (two for
multiple choice: the `rank_1` policy and the default policy). -/
def specCatalog : Catalog :=
  [("placement", [placementTplC4]),
   ("true_false", [tfTplC4]),
   ("multiple_choice", [mcRankTplC4, mcDefaultTplC4]),
   ("drag_drop", [ddTplC4]),
   ("fill_blank", [fbTplC4])]

/-- A library whose only rows are four top artists with truthy names:
enough rows for the default-policy multiple-choice template, nothing else. -/
def udC4 : UserData :=
  { albums := [], saved_tracks := [], playlists := [], top_tracks := [],
    top_artists := [mkNameRec (some "Artist A"), mkNameRec (some "Artist B"),
                    mkNameRec (some "Artist C"), mkNameRec (some "Artist D")] }

/-- The draw stream for the reachability half: an identity shuffle of the
five family keys, the multiple-choice family, its default-policy template,
then the four sample indices in descending order. -/
def c4Stream (i1 i2 i3 i4 : Nat) : Nat → Nat :=
  fun n => [4, 3, 2, 1, 2, 1, i4, i3, i2, i1].getD n 0

/-- **C4 counterexample:** on the spec-modelled catalog, the library `udC4`
satisfies the claim's hypothesis — its `top_artists` partition holds four
rows whose `name` (the field quoted by the catalog's default-policy
multiple-choice template) is truthy — yet the all-zeros draw stream makes
every one of the 100 attempts pick the true/false template over the empty
`albums` partition, so generation succeeds with zero questions. -/
theorem generate_zero_despite_four_artists :
    (∃ tpl ∈ (dictGet specCatalog "multiple_choice").getD [],
        tpl.data_source = "top_artists" ∧ tpl.field = "name"
        ∧ tpl.count = some 4 ∧ tpl.correct_answer = none)
    ∧ ((udC4.get "top_artists").filter (fun r => truthy (r.attrs "name"))).length = 4
    ∧ generate_questions specCatalog udC4 (fun _ => 0) 10 = .ok [] :=
  ⟨⟨mcDefaultTplC4, by decide, rfl, rfl, rfl, rfl⟩, by rfl, by rfl⟩

/-- **C4.** (amended) Single-player generation with `count = 10` never
returns more than 10 questions, for every catalog, library, and draw
stream.  The companion lower bound holds only existentially in the draws:
on the spec-modelled catalog, whenever the `top_artists` partition has four
rows (at positions `i1 < i2 < i3 < i4`) whose `name` — the field quoted by
the default-policy multiple-choice template — is truthy, SOME draw stream
yields at least one question; it is not true that every stream does. -/
theorem generate_at_most_count_and_reachable
    (tm : Catalog) (ud ud2 : UserData) (s : Nat → Nat) (qs : List Question)
    (i1 i2 i3 i4 : Nat) :
    (generate_questions tm ud s 10 = .ok qs → qs.length ≤ 10)
    ∧ (i1 < i2 → i2 < i3 → i3 < i4 → i4 < ud2.top_artists.length →
       (ud2.top_artists[i1]?).map (fun r => truthy (r.attrs "name")) = some true →
       (ud2.top_artists[i2]?).map (fun r => truthy (r.attrs "name")) = some true →
       (ud2.top_artists[i3]?).map (fun r => truthy (r.attrs "name")) = some true →
       (ud2.top_artists[i4]?).map (fun r => truthy (r.attrs "name")) = some true →
       ∃ s2 qs2, generate_questions specCatalog ud2 s2 10 = .ok qs2
         ∧ 1 ≤ qs2.length) := by
  constructor
  · exact fun h => generate_questions_le h
  · intro h12 h23 h34 h4 e1 e2 e3 e4
    obtain ⟨r1, b1, t1⟩ := Option.map_eq_some'.mp e1
    obtain ⟨r2, b2, t2⟩ := Option.map_eq_some'.mp e2
    obtain ⟨r3, b3, t3⟩ := Option.map_eq_some'.mp e3
    obtain ⟨r4, b4, t4⟩ := Option.map_eq_some'.mp e4
    obtain ⟨v1, a1, hv1⟩ := truthy_some t1
    obtain ⟨v2, a2, hv2⟩ := truthy_some t2
    obtain ⟨v3, a3, hv3⟩ := truthy_some t3
    obtain ⟨v4, a4, hv4⟩ := truthy_some t4
    have hne : ud2.top_artists.isEmpty = false :=
      List.isEmpty_eq_false.mpr (List.length_pos.mp (by omega))
    have hlen4 : ¬ ud2.top_artists.length < 4 := by omega
    have hsamp : pySample (c4Stream i1 i2 i3 i4) 4 6 ud2.top_artists
        = ([r4, r3, r2, r1], 10) :=
      pySample_four_desc h12 h23 h34 h4 rfl rfl rfl rfl b4 b3 b2 b1
    have hmc := mc_default_eval
      (show ud2.get mcDefaultTplC4.data_source = ud2.top_artists from rfl)
      rfl rfl rfl hne hlen4 hsamp a4 a3 a2 a1 hv4 hv3 hv2 hv1
    have hq0 : dispatchGenerate "multiple_choice" mcDefaultTplC4 ud2
        (c4Stream i1 i2 i3 i4) 6
        = (some { id := "", qtype := "multiple_choice",
                  question := mcDefaultTplC4.text,
                  options := (pyShuffle (c4Stream i1 i2 i3 i4) 10
                    [some v4, some v3, some v2, some v1]).1,
                  correct_answer := .vstr v4, data := QData.empty }, 13) := by
      show generate_multiple_choice_question mcDefaultTplC4 ud2
        (c4Stream i1 i2 i3 i4) 6 = _
      exact hmc.trans rfl
    have hpick : pyChoice (if ((["placement", "true_false", "multiple_choice",
        "drag_drop", "fill_blank"] : List String).filter (fun t =>
          (dictGet [("placement", 0), ("true_false", 0), ("multiple_choice", 0),
            ("drag_drop", 0), ("fill_blank", 0)] t).getD 0 = 0)).isEmpty
        then (["placement", "true_false", "multiple_choice", "drag_drop",
          "fill_blank"] : List String)
        else (["placement", "true_false", "multiple_choice", "drag_drop",
          "fill_blank"] : List String).filter (fun t =>
          (dictGet [("placement", 0), ("true_false", 0), ("multiple_choice", 0),
            ("drag_drop", 0), ("fill_blank", 0)] t).getD 0 = 0))
        (c4Stream i1 i2 i3 i4 4) = some "multiple_choice" := rfl
    have htpls : (dictGet specCatalog "multiple_choice").getD []
        = [mcRankTplC4, mcDefaultTplC4] := rfl
    have htpl : pyChoice [mcRankTplC4, mcDefaultTplC4] (c4Stream i1 i2 i3 i4 5)
        = some mcDefaultTplC4 := rfl
    have hstep : generalLoop1 specCatalog ["placement", "true_false",
        "multiple_choice", "drag_drop", "fill_blank"] ud2 (c4Stream i1 i2 i3 i4)
        10 50 [] [("placement", 0), ("true_false", 0), ("multiple_choice", 0),
          ("drag_drop", 0), ("fill_blank", 0)] 4
      = generalLoop1 specCatalog ["placement", "true_false", "multiple_choice",
          "drag_drop", "fill_blank"] ud2 (c4Stream i1 i2 i3 i4) 10 49
          [{ id := "q1", qtype := "multiple_choice",
             question := mcDefaultTplC4.text,
             options := (pyShuffle (c4Stream i1 i2 i3 i4) 10
               [some v4, some v3, some v2, some v1]).1,
             correct_answer := .vstr v4, data := QData.empty }]
          [("placement", 0), ("true_false", 0), ("multiple_choice", 1),
           ("drag_drop", 0), ("fill_blank", 0)] 13 :=
      generalLoop1_success_step (by decide) hpick htpls rfl htpl hq0
    obtain ⟨⟨qs1, cnts1, c1, rem1⟩, hres1⟩ := generalLoop1_ok specCatalog
      ["placement", "true_false", "multiple_choice", "drag_drop", "fill_blank"]
      ud2 (c4Stream i1 i2 i3 i4) 10 (by decide) 49
      [{ id := "q1", qtype := "multiple_choice",
         question := mcDefaultTplC4.text,
         options := (pyShuffle (c4Stream i1 i2 i3 i4) 10
           [some v4, some v3, some v2, some v1]).1,
         correct_answer := .vstr v4, data := QData.empty }]
      [("placement", 0), ("true_false", 0), ("multiple_choice", 1),
       ("drag_drop", 0), ("fill_blank", 0)] 13
    have hlen1 : 1 ≤ qs1.length := by
      have hg := generalLoop1_ge _ _ _ _ _ hres1
      simpa using hg
    obtain ⟨⟨qs2f, c2f⟩, hres2⟩ := generalLoop2_ok specCatalog
      ["placement", "true_false", "multiple_choice", "drag_drop", "fill_blank"]
      ud2 (c4Stream i1 i2 i3 i4) 10 (by decide) (50 + rem1) qs1 c1
    have hlen2 : qs1.length ≤ qs2f.length := by
      have hg := generalLoop2_ge _ _ _ _ hres2
      simpa using hg
    have h1big : generalLoop1 specCatalog
        (pyShuffle (c4Stream i1 i2 i3 i4) 0 (specCatalog.map Prod.fst)).1 ud2
        (c4Stream i1 i2 i3 i4) 10 50 []
        ((pyShuffle (c4Stream i1 i2 i3 i4) 0 (specCatalog.map Prod.fst)).1.map
          (fun t => (t, 0)))
        (pyShuffle (c4Stream i1 i2 i3 i4) 0 (specCatalog.map Prod.fst)).2
        = .ok (qs1, cnts1, c1, rem1) := hstep.trans hres1
    have h2big : generalLoop2 specCatalog
        (pyShuffle (c4Stream i1 i2 i3 i4) 0 (specCatalog.map Prod.fst)).1 ud2
        (c4Stream i1 i2 i3 i4) 10 (50 + rem1) qs1 c1 = .ok (qs2f, c2f) := hres2
    exact ⟨c4Stream i1 i2 i3 i4, qs2f,
      generate_questions_assemble h1big h2big, le_trans hlen1 hlen2⟩

/-- Witness for C4 at the concrete library `udC4`: the zero-question run is
within the cap, and a draw stream reaching one question exists. -/
theorem generate_at_most_count_and_reachable_witness :
    ([] : List Question).length ≤ 10
    ∧ ∃ s2 qs2, generate_questions specCatalog udC4 s2 10 = .ok qs2
        ∧ 1 ≤ qs2.length :=
  ⟨(generate_at_most_count_and_reachable specCatalog udC4 udC4 (fun _ => 0) []
      0 1 2 3).1 (by rfl),
   (generate_at_most_count_and_reachable specCatalog udC4 udC4 (fun _ => 0) []
      0 1 2 3).2 (by decide) (by decide) (by decide) (by decide)
      (by rfl) (by rfl) (by rfl) (by rfl)⟩
